import Mathlib

/-
Verification development for the agentic-advisor portfolio backend
(src/app.py and src/streaming_agent_chat.py).

The reproducible core of the program is modelled shallowly:
 - free-form asset-class labels are Lean `String`s; Python `.lower()` /
   `.upper()` are modelled character-wise (the labels in play are ASCII);
 - Python float arithmetic is modelled over `ℚ` (the dollar amounts and
   percentages in the claims are exact decimals, so no rounding artefacts
   are introduced by this choice);
 - the external price oracle (yfinance) is a parameter
   `prices : String → Option ℚ`; a `none` price models all three
   conditions the code treats as unresolvable (ticker absent from the
   price dict, price `None`, or price NaN, cf. src/app.py:295 and 444-446);
 - the external database and LLM agents are parameters at the boundary
   where the code consumes their results.
-/

/-- The six canonical buckets, in the insertion order of the Python
`buckets` dict literals (src/app.py:411-418 and 562-569). -/
inductive Bucket where
  | usEquity
  | intlEquity
  | emergingMarkets
  | bonds
  | realEstate
  | cash
deriving DecidableEq, Repr

/-- The bucket keys in Python dict insertion order. -/
def Bucket.all : List Bucket :=
  [.usEquity, .intlEquity, .emergingMarkets, .bonds, .realEstate, .cash]

/-- Python `str.lower()`, character-wise (ASCII; the keyword matching in the
source only involves ASCII labels). -/
def lowerStr (s : String) : String := String.mk (s.data.map Char.toLower)

/-- Python `str.upper()`, character-wise (ASCII). -/
def upperStr (s : String) : String := String.mk (s.data.map Char.toUpper)

/-- Whether `pat` occurs at the head of `l`. -/
def listStartsWith : List Char → List Char → Bool
  | [], _ => true
  | _ :: _, [] => false
  | a :: as, b :: bs => a == b && listStartsWith as bs

/-- Whether `pat` occurs as a contiguous run anywhere in the list. -/
def listHasRun (pat : List Char) : List Char → Bool
  | [] => pat.isEmpty
  | c :: cs => listStartsWith pat (c :: cs) || listHasRun pat cs

/-- Python `pat in s` substring containment on strings. -/
def strIn (pat s : String) : Bool := listHasRun pat.data s.data

/-- The drift path's bucket classifier, src/app.py:420-433
(`classify` inside `analyze_portfolio_drift`).  Note that the `Cash`
rule tests both `"cash"` and `"usd"`, and the `Bonds` rule tests both
`"bond"` and `"fixed income"`. -/
def classify_drift (assetName : String) : Bucket :=
  let al := lowerStr assetName
  if strIn "bond" al || strIn "fixed income" al then .bonds
  else if strIn "real estate" al || strIn "reit" al then .realEstate
  else if strIn "emerging" al then .emergingMarkets
  else if strIn "international" al || strIn "developed" al then .intlEquity
  else if strIn "cash" al || strIn "usd" al then .cash
  else .usEquity

/-- The optimize path's bucket classifier, src/app.py:571-578
(`classify` inside `optimize_portfolio`).  Unlike the drift variant it
tests only `"bond"` (not `"fixed income"`) for Bonds and only
`"cash"` (not `"usd"`) for Cash. -/
def classify_opt (assetName : String) : Bucket :=
  let al := lowerStr assetName
  if strIn "bond" al then .bonds
  else if strIn "real estate" al || strIn "reit" al then .realEstate
  else if strIn "emerging" al then .emergingMarkets
  else if strIn "international" al || strIn "developed" al then .intlEquity
  else if strIn "cash" al then .cash
  else .usEquity

/-- A position row as consumed by the valuation paths: the code reads
`row.get("ticker", "")`, `row.get("amount", 0)` and
`row.get("units", "shares")`, so missing JSON keys are modelled by the
same defaults already substituted. -/
structure PositionRow where
  ticker : String
  amount : ℚ
  units : String
deriving DecidableEq, Repr

/-- The structured positions payload: asset-class label to its ordered
rows, in Python dict insertion order. -/
def Positions : Type := List (String × List PositionRow)

/-- All rows of all asset classes, in iteration order
(`[row for arr in positions.values() for row in arr]`, src/app.py:390). -/
def allRows (positions : Positions) : List PositionRow :=
  (positions.map Prod.snd).flatten

/-- Position value of one row on the drift path, src/app.py:438-447:
a `usd` row is worth its amount; otherwise `amount * price`, and a row
whose price is unresolvable (`None` or NaN) is skipped (`continue`),
modelled as `none`. -/
def drift_row_value (prices : String → Option ℚ) (row : PositionRow) : Option ℚ :=
  if row.units = "usd" then some row.amount
  else
    match prices (upperStr row.ticker) with
    | none => none
    | some p => some (row.amount * p)

/-- Contribution of one row of asset class `cls` to bucket `b` on the
drift path, src/app.py:435-453: the row value goes 60/40 to
US Equity/Bonds when the label contains "balanced", else wholly to
`classify_drift cls`; a skipped row contributes nothing. -/
def drift_contrib (prices : String → Option ℚ) (cls : String) (row : PositionRow)
    (b : Bucket) : ℚ :=
  match drift_row_value prices row with
  | none => 0
  | some v =>
    if strIn "balanced" (lowerStr cls) then
      if b = .usEquity then v * 0.6
      else if b = .bonds then v * 0.4
      else 0
    else if b = classify_drift cls then v else 0

/-- Asset-class/row pairs in iteration order. -/
def taggedRows (positions : Positions) : List (String × PositionRow) :=
  (positions.map (fun p => p.2.map (fun r => (p.1, r)))).flatten

/-- Per-bucket dollar totals of the drift path (the `buckets` dict after
the loop at src/app.py:435-453). -/
def drift_buckets (prices : String → Option ℚ) (positions : Positions)
    (b : Bucket) : ℚ :=
  ((taggedRows positions).map (fun cr => drift_contrib prices cr.1 cr.2 b)).sum

/-- `sum(buckets.values())`, src/app.py:455 and 604. -/
def totalVal (buckets : Bucket → ℚ) : ℚ := (Bucket.all.map buckets).sum

/-- Position value of one row on the optimize path, src/app.py:596:
`amt if units=='usd' else amt * prices.get(ticker, 0)` — an unresolvable
price contributes factor 0 rather than skipping the row. -/
def opt_row_value (prices : String → Option ℚ) (row : PositionRow) : ℚ :=
  if row.units = "usd" then row.amount
  else row.amount * ((prices (upperStr row.ticker)).getD 0)

/-- Contribution of one row to bucket `b` on the optimize path,
src/app.py:591-602 (balanced 60/40 split, else `classify_opt`). -/
def opt_contrib (prices : String → Option ℚ) (cls : String) (row : PositionRow)
    (b : Bucket) : ℚ :=
  let v := opt_row_value prices row
  if strIn "balanced" (lowerStr cls) then
    if b = .usEquity then v * 0.6
    else if b = .bonds then v * 0.4
    else 0
  else if b = classify_opt cls then v else 0

/-- Per-bucket dollar totals of the optimize path (the `buckets` dict
after the loop at src/app.py:591-602). -/
def opt_buckets (prices : String → Option ℚ) (positions : Positions)
    (b : Bucket) : ℚ :=
  ((taggedRows positions).map (fun cr => opt_contrib prices cr.1 cr.2 b)).sum

/-- Row 1 of `target_map_full` (drift path), src/app.py:464. -/
def tmf1 : Bucket → ℚ
  | .usEquity => 20 | .intlEquity => 5 | .emergingMarkets => 0
  | .bonds => 55 | .realEstate => 5 | .cash => 15

/-- Row 2 of `target_map_full` (drift path), src/app.py:465. -/
def tmf2 : Bucket → ℚ
  | .usEquity => 30 | .intlEquity => 10 | .emergingMarkets => 0
  | .bonds => 45 | .realEstate => 5 | .cash => 10

/-- Row 3 of `target_map_full` (drift path), src/app.py:466. -/
def tmf3 : Bucket → ℚ
  | .usEquity => 40 | .intlEquity => 12 | .emergingMarkets => 3
  | .bonds => 35 | .realEstate => 5 | .cash => 5

/-- Row 4 of `target_map_full` (drift path), src/app.py:467. -/
def tmf4 : Bucket → ℚ
  | .usEquity => 50 | .intlEquity => 15 | .emergingMarkets => 5
  | .bonds => 25 | .realEstate => 5 | .cash => 0

/-- Row 5 of `target_map_full` (drift path), src/app.py:468. -/
def tmf5 : Bucket → ℚ
  | .usEquity => 60 | .intlEquity => 20 | .emergingMarkets => 10
  | .bonds => 5 | .realEstate => 5 | .cash => 0

/-- The drift path's target table `target_map_full`, src/app.py:463-469,
as a partial map on integer risk levels. -/
def target_map_full (lvl : ℤ) : Option (Bucket → ℚ) :=
  if lvl = 1 then some tmf1
  else if lvl = 2 then some tmf2
  else if lvl = 3 then some tmf3
  else if lvl = 4 then some tmf4
  else if lvl = 5 then some tmf5
  else none

/-- `target_map_full.get(risk_level, target_map_full[3])`, src/app.py:471. -/
def tgtFullLookup (lvl : ℤ) : Bucket → ℚ := (target_map_full lvl).getD tmf3

/-- Row 1 of `target_map` (optimize path), src/app.py:611. -/
def tm1 : Bucket → ℚ
  | .usEquity => 20 | .intlEquity => 5 | .emergingMarkets => 0
  | .bonds => 55 | .realEstate => 5 | .cash => 15

/-- Row 2 of `target_map` (optimize path), src/app.py:612. -/
def tm2 : Bucket → ℚ
  | .usEquity => 30 | .intlEquity => 10 | .emergingMarkets => 0
  | .bonds => 45 | .realEstate => 5 | .cash => 10

/-- Row 3 of `target_map` (optimize path), src/app.py:613. -/
def tm3 : Bucket → ℚ
  | .usEquity => 40 | .intlEquity => 12 | .emergingMarkets => 3
  | .bonds => 35 | .realEstate => 5 | .cash => 5

/-- Row 4 of `target_map` (optimize path), src/app.py:614. -/
def tm4 : Bucket → ℚ
  | .usEquity => 50 | .intlEquity => 15 | .emergingMarkets => 5
  | .bonds => 25 | .realEstate => 5 | .cash => 0

/-- Row 5 of `target_map` (optimize path), src/app.py:615. -/
def tm5 : Bucket → ℚ
  | .usEquity => 60 | .intlEquity => 20 | .emergingMarkets => 10
  | .bonds => 5 | .realEstate => 5 | .cash => 0

/-- The optimize path's target table `target_map`, src/app.py:610-616. -/
def target_map (lvl : ℤ) : Option (Bucket → ℚ) :=
  if lvl = 1 then some tm1
  else if lvl = 2 then some tm2
  else if lvl = 3 then some tm3
  else if lvl = 4 then some tm4
  else if lvl = 5 then some tm5
  else none

/-- `target_map.get(risk_level, target_map[3])`, src/app.py:617. -/
def tgtOptLookup (lvl : ℤ) : Bucket → ℚ := (target_map lvl).getD tm3

/-- Row 1 of the target allocation table as written in the spec, section 4.5
(the refinement comparand for the code's two table copies). -/
def spec_row1 : Bucket → ℚ
  | .usEquity => 20 | .intlEquity => 5 | .emergingMarkets => 0
  | .bonds => 55 | .realEstate => 5 | .cash => 15

/-- Row 2 of the spec's target allocation table, section 4.5. -/
def spec_row2 : Bucket → ℚ
  | .usEquity => 30 | .intlEquity => 10 | .emergingMarkets => 0
  | .bonds => 45 | .realEstate => 5 | .cash => 10

/-- Row 3 of the spec's target allocation table, section 4.5. -/
def spec_row3 : Bucket → ℚ
  | .usEquity => 40 | .intlEquity => 12 | .emergingMarkets => 3
  | .bonds => 35 | .realEstate => 5 | .cash => 5

/-- Row 4 of the spec's target allocation table, section 4.5. -/
def spec_row4 : Bucket → ℚ
  | .usEquity => 50 | .intlEquity => 15 | .emergingMarkets => 5
  | .bonds => 25 | .realEstate => 5 | .cash => 0

/-- Row 5 of the spec's target allocation table, section 4.5. -/
def spec_row5 : Bucket → ℚ
  | .usEquity => 60 | .intlEquity => 20 | .emergingMarkets => 10
  | .bonds => 5 | .realEstate => 5 | .cash => 0

/-- The spec's target allocation table, section 4.5 (spec comparand). -/
def spec_target_table (lvl : ℤ) : Option (Bucket → ℚ) :=
  if lvl = 1 then some spec_row1
  else if lvl = 2 then some spec_row2
  else if lvl = 3 then some spec_row3
  else if lvl = 4 then some spec_row4
  else if lvl = 5 then some spec_row5
  else none

/-- Percentage weights `pct = {k: v / total_val * 100}`, src/app.py:460
(likewise `weights` at src/app.py:608). -/
def pct_weights (buckets : Bucket → ℚ) : Bucket → ℚ :=
  fun b => buckets b / totalVal buckets * 100

/-- The accumulation loop `total_abs_drift += abs(diff)` over the target
row's buckets, src/app.py:473-479, as a left fold in dict order. -/
def total_abs_drift (buckets tgt : Bucket → ℚ) : ℚ :=
  Bucket.all.foldl (fun acc b => acc + |pct_weights buckets b - tgt b|) 0

/-- The recommendation rule, src/app.py:481. -/
def drift_recommendation (tad : ℚ) : String :=
  if tad < 10 then "Drift is within acceptable range."
  else "Rebalancing recommended to realign with targets."

/-- The computational core of `analyze_portfolio_drift`,
src/app.py:388-489, with the database and price oracle at the model
boundary: positions already parsed from JSON, prices given.  Returns the
total absolute drift and the recommendation string, or the error string
the function returns early. -/
def analyze_core (prices : String → Option ℚ) (positions : Positions)
    (riskLevel : ℤ) : Except String (ℚ × String) :=
  if allRows positions = [] then .error "❌ No positions provided."
  else
    let buckets := drift_buckets prices positions
    if totalVal buckets = 0 then
      .error "❌ Unable to compute drift — total portfolio value is zero."
    else
      let tad := total_abs_drift buckets (tgtFullLookup riskLevel)
      .ok (tad, drift_recommendation tad)

/-- `round(x, 1)`: rounding to one decimal place, src/app.py:623.
Python rounds float ties to even; over `ℚ` we use Mathlib's `round`
(ties away from the floor); no claim in scope depends on a tie. -/
def round1 (q : ℚ) : ℚ := ((round (q * 10) : ℤ) : ℚ) / 10

/-- One suggested trade (`action` is the literal `"Buy"` or `"Sell"`). -/
structure Trade where
  action : String
  magnitude : ℚ
  bucket : Bucket
deriving DecidableEq, Repr

/-- The trade-directive loop of `optimize_portfolio`, src/app.py:620-626:
per target bucket, `diff = round(tgt - cur, 1)`; skip if `abs(diff) < 1`;
else `Buy` if `diff > 0` else `Sell`, magnitude `abs(diff)`. -/
def trade_deltas (weights tgt : Bucket → ℚ) : List Trade :=
  Bucket.all.filterMap fun b =>
    let diff := round1 (tgt b - weights b)
    if |diff| < 1 then none
    else some ⟨if 0 < diff then "Buy" else "Sell", |diff|, b⟩

/-- The computational core of `optimize_portfolio`, src/app.py:559-635,
from parsed positions and given prices to the suggested trade list (or
the early error string). -/
def optimize_core (prices : String → Option ℚ) (positions : Positions)
    (riskLevel : ℤ) : Except String (List Trade) :=
  let buckets := opt_buckets prices positions
  let total := totalVal buckets
  if total = 0 then .error "❌ Unable to value portfolio; cannot optimize."
  else .ok (trade_deltas (fun b => buckets b / total * 100) (tgtOptLookup riskLevel))

/-- The trades section of the optimize reply, src/app.py:629: when no
bucket survives suppression the fixed "already aligned" line is shown. -/
def trades_text_empty : String := "• Portfolio already aligned with target weights."

/-- Python `str.isdigit` restricted to ASCII (the risk-tolerance strings
in play are ASCII; Python additionally accepts non-ASCII digit code
points). Used at src/app.py:370, 540 and 643. -/
def pyIsDigit (c : Char) : Bool := c.isDigit

/-- Helper for `whitespaceTokens`: walk the characters, accumulating the
current (reversed) token. -/
def splitWsAux : List Char → List Char → List String
  | [], acc => if acc.isEmpty then [] else [String.mk acc.reverse]
  | c :: cs, acc =>
    if c.isWhitespace then
      if acc.isEmpty then splitWsAux cs []
      else String.mk acc.reverse :: splitWsAux cs []
    else splitWsAux cs (c :: acc)

/-- Python `str.split()` with no argument: split on whitespace runs,
dropping empty pieces. -/
def whitespaceTokens (s : String) : List String := splitWsAux s.data []

/-- Core of Python `int(token)` on a sign-stripped token: digits possibly
separated by single underscores (PEP 515); anything else raises. -/
def pyDigitsCore : ℕ → Bool → List Char → Option ℕ
  | acc, afterUnd, [] => if afterUnd then none else some acc
  | acc, afterUnd, c :: cs =>
    if c.isDigit then pyDigitsCore (10 * acc + (c.toNat - 48)) false cs
    else if c = '_' && afterUnd = false then pyDigitsCore acc true cs
    else none

/-- Python `int(token)` on a whitespace-free token: optional sign, then
digits (with single-underscore grouping); `none` models `ValueError`. -/
def pyIntOfToken (t : String) : Option ℤ :=
  match t.data with
  | [] => none
  | c :: cs =>
    if c = '-' then
      match cs with
      | [] => none
      | d :: ds =>
        if d.isDigit then (pyDigitsCore (d.toNat - 48) false ds).map (fun n => -(n : ℤ))
        else none
    else if c = '+' then
      match cs with
      | [] => none
      | d :: ds =>
        if d.isDigit then (pyDigitsCore (d.toNat - 48) false ds).map (fun n => (n : ℤ))
        else none
    else if c.isDigit then (pyDigitsCore (c.toNat - 48) false cs).map (fun n => (n : ℤ))
    else none

/-- Risk-level parsing on the drift path, src/app.py:370:
`int(risk_tolerance.split()[0]) if risk_tolerance and
risk_tolerance[0].isdigit() else 3`.  `none` models the uncaught
`ValueError` (which aborts `analyze_portfolio_drift` into its generic
`except` handler). -/
def parse_risk_drift (rt : String) : Option ℤ :=
  if rt.isEmpty then some 3
  else if pyIsDigit (rt.data.headD ' ') then
    match whitespaceTokens rt with
    | [] => none
    | tok :: _ => pyIntOfToken tok
  else some 3

/-- Risk-level parsing on the optimize path, src/app.py:539-544: the same
expression inside `try/except`, defaulting to 3 on `ValueError`. -/
def parse_risk_opt (rt : String) : ℤ := (parse_risk_drift rt).getD 3

/-- Join a list of strings with `", "` — Python `", ".join(...)`,
src/app.py:299. -/
def joinComma : List String → String
  | [] => ""
  | [t] => t
  | t :: ts => t ++ ", " ++ joinComma ts

/-- The special-case ticker mapping of `fetch_portfolio_data`,
src/app.py:162-168 (applied after uppercasing). -/
def map_special_ticker (t : String) : String :=
  if t = "REAL ESTATE (REITS)" ∨ t = "REITS" then "VNQ"
  else if t = "US EQUITY" ∨ t = "US STOCKS" then "SPY"
  else t

/-- Accumulator of the structured-positions loop in
`fetch_portfolio_data`, src/app.py:155-180: the growing (still
duplicated) ticker list and the sign-encoded `shares_lookup` dict
(`.get(t, 0)` default modelled by a total function that is 0 off its
built-up support). -/
structure FetchAcc where
  tickers : List String
  lookup : String → ℚ

/-- One iteration of the loop at src/app.py:155-180: skip empty tickers,
apply the special-case mapping, then accumulate shares positively and
fixed-USD amounts negatively ("negative means USD"). -/
def fetch_fold (acc : FetchAcc) (row : PositionRow) : FetchAcc :=
  let t0 := upperStr row.ticker
  if t0 = "" then acc
  else
    let t := map_special_ticker t0
    { tickers := acc.tickers ++ [t]
      lookup := fun x =>
        if x = t then
          if row.units = "shares" then acc.lookup t + row.amount
          else acc.lookup t - row.amount
        else acc.lookup x }

/-- The state after the whole structured-positions loop,
src/app.py:155-180 (asset-class keys are not used by the accumulation). -/
def fetch_state (positions : Positions) : FetchAcc :=
  (allRows positions).foldl fetch_fold ⟨[], fun _ => 0⟩

/-- `list(dict.fromkeys(tickers))`, src/app.py:201: duplicates removed,
first-seen order preserved. -/
def dedupFirst (seen : List String) : List String → List String
  | [] => []
  | t :: ts =>
    if t ∈ seen then dedupFirst seen ts
    else t :: dedupFirst (seen ++ [t]) ts

/-- The requested tickers of the fetch path after dedup, src/app.py:201. -/
def fetch_tickers (positions : Positions) : List String :=
  dedupFirst [] (fetch_state positions).tickers

/-- `invalid_tickers`, src/app.py:295: the requested tickers whose price
is unresolvable (absent, `None`, or NaN — all modelled as `none`). -/
def invalid_tickers (prices : String → Option ℚ) (tickers : List String) :
    List String :=
  tickers.filter (fun t => (prices t).isNone)

/-- The error message of src/app.py:297-301. -/
def priced_error_message (bad : List String) : String :=
  "❌ Error: One or more ticker symbols could not be priced: " ++ joinComma bad
    ++ ". Please correct the ticker symbol(s) and resubmit the questionnaire."

/-- The missing-price guard of the fetch path, src/app.py:295-301. -/
def fetch_price_guard (prices : String → Option ℚ) (tickers : List String) :
    Except String Unit :=
  if invalid_tickers prices tickers = [] then .ok ()
  else .error (priced_error_message (invalid_tickers prices tickers))

/-- The per-ticker valuation pass of the fetch path, src/app.py:329-344:
rows with unresolvable prices are skipped; a non-negative lookup value is
shares (times price), a negative one is a fixed USD amount (negated). -/
def ticker_pass_total (prices : String → Option ℚ) (positions : Positions) : ℚ :=
  ((fetch_tickers positions).map (fun t =>
    match prices t with
    | none => 0
    | some p =>
      let s := (fetch_state positions).lookup t
      if 0 ≤ s then s * p else -s)).sum

/-- The self-reported USD pass of the fetch path, src/app.py:346-355.
The comment there says "USD-only rows (simple amount entries without
tickers)", but the loop itself adds every positive `usd` row, with or
without a ticker. -/
def usd_pass_total (positions : Positions) : ℚ :=
  ((allRows positions).map (fun row =>
    if row.units = "usd" then (if row.amount ≤ 0 then 0 else row.amount) else 0)).sum

/-- `total_value` as reported by `fetch_portfolio_data`,
src/app.py:328-359: the sum of both passes. -/
def fetch_total_value (prices : String → Option ℚ) (positions : Positions) : ℚ :=
  ticker_pass_total prices positions + usd_pass_total positions

/-- Concrete input for the double-counting analysis: one `usd` row that
also carries a resolvable ticker. -/
def c10positions : Positions := [("US Equity", [⟨"SPY", 1000, "usd"⟩])]

/-- Price oracle for the double-counting analysis: only SPY resolves. -/
def c10prices : String → Option ℚ := fun t => if t = "SPY" then some 500 else none

/-- One SSE event of the streaming endpoint.  The wire form is
`data: {json}\n\n` (src/streaming_agent_chat.py:46); here the JSON object
is modelled structurally.  `create_stream_message` events carry all three
fields; the raw `stream_end` and top-level exception events omit fields
(src/streaming_agent_chat.py:745 and 749). -/
structure StreamEvent where
  type : String
  agent : Option String
  content : Option String
deriving DecidableEq, Repr

/-- `create_stream_message`, src/streaming_agent_chat.py:34-46. -/
def create_stream_message (msgType agent content : String) : StreamEvent :=
  ⟨msgType, some agent, some content⟩

/-- The terminating event `{'type': 'stream_end'}`,
src/streaming_agent_chat.py:428, 464, 488, 498, 745: type only. -/
def stream_end_event : StreamEvent := ⟨"stream_end", none, none⟩

/-- The top-level exception event
`{'type': 'error', 'content': f'Error: {e}'}`,
src/streaming_agent_chat.py:749: no agent field. -/
def stream_error_event (msg : String) : StreamEvent :=
  ⟨"error", none, some ("Error: " ++ msg)⟩

/-- Control outcome of a piece of the generator body: fall through to the
following code, end the generator (`return`), or raise an exception that
the top-level `except` will catch. -/
inductive Ctl where
  | go
  | halt
  | raised (msg : String)
deriving DecidableEq, Repr

/-- A piece of the generator body: the events it yields plus how control
leaves it. -/
structure Seg where
  events : List StreamEvent
  ctl : Ctl

/-- Yield some events and fall through. -/
def Seg.emits (es : List StreamEvent) : Seg := ⟨es, .go⟩

/-- Yield some events and then `return` from the generator. -/
def Seg.stop (es : List StreamEvent) : Seg := ⟨es, .halt⟩

/-- Sequential composition: run `b` only if `a` falls through. -/
def Seg.seq (a b : Seg) : Seg :=
  match a.ctl with
  | .go => ⟨a.events ++ b.events, b.ctl⟩
  | _ => a

/-- An external agent call `agents[key].run(prompt)`: its result feeds the
continuation; an exception propagates out of the body. -/
def Seg.call (r : Except String String) (k : String → Seg) : Seg :=
  match r with
  | .ok s => k s
  | .error e => ⟨[], .raised e⟩

/-- Inputs of one run of `create_agent_stream`
(src/streaming_agent_chat.py:31-749) with the external collaborators at
the model boundary:
`routerIntent`/`routerIntents`/`routerOptions` are the values extracted
from the router agent's JSON (lines 118-202; a router exception or parse
failure yields intent `"clarify"`, an absent `intent` key yields `none`);
`agentRun key prompt` is `agents[key].run(prompt)` with `.error`
modelling a raised exception; `optQFetch` is the questionnaire fetch of
the optimize branch (lines 263-276), `.error` modelling a raised
exception; `legacyQ` is the already-defaulted
(risk, goal, horizon) triple of lines 533-545. -/
structure StreamParams where
  sessionId : String
  userMessage : String
  routerIntent : Option String
  routerIntents : Option (List String)
  routerOptions : List String
  agentRun : String → String → Except String String
  optQFetch : Except String (String × String × String)
  legacyQ : String × String × String

/-- `intents_list` extraction, src/streaming_agent_chat.py:177-188. -/
def intents_list_of (p : StreamParams) : List String :=
  match p.routerIntents with
  | some l => l
  | none =>
    match p.routerIntent with
    | some i => if i = "clarify" then [] else [i]
    | none => []

/-- `extract_clean_content`, src/streaming_agent_chat.py:72-113, reduced
to its length-gated fallback structure: the regex scrubbing of
Agno/RunResponse internals only rewrites the narration text and is not
modelled (it never changes which events are yielded or their types). -/
def extract_clean_content (s : String) : String :=
  if 50 < s.length then s
  else if s = "" then "✅ **Task Complete** - I’ve finished processing your request."
  else "✅ I’ve successfully completed this analysis step."

/-- `'\n'.join(f"• {o}" for o in opts)`. -/
def bulletLines (l : List String) : String :=
  String.intercalate "\n" (l.map (fun o => "• " ++ o))

/-- `_run_single_agent`, src/streaming_agent_chat.py:207-215: start
event, one thinking event per step, agent call, result event. -/
def run_single_agent (p : StreamParams) (key intro : String)
    (steps : List String) : Seg :=
  Seg.seq
    (Seg.emits (create_stream_message "agent_start" key intro ::
      steps.map (fun st => create_stream_message "agent_thinking" key st)))
    (Seg.call (p.agentRun key ("Session ID: " ++ p.sessionId ++ ". User request: " ++ p.userMessage))
      (fun r => Seg.emits [create_stream_message "agent_result" key (extract_clean_content r)]))

/-- The data-refresh step used before drift/optimize work,
src/streaming_agent_chat.py:444 and 470. -/
def refresh_single (p : StreamParams) : Seg :=
  run_single_agent p "data_fetch"
    "🔍 **Data-Fetch Agent**: Retrieving your latest portfolio data..."
    ["• Refreshing database records...", "• Pulling live prices..."]

/-- Dispatch of one intent item to `_run_single_agent`,
src/streaming_agent_chat.py:448-460 (also reused at 473-484). -/
def single_for (p : StreamParams) (item : String) : Seg :=
  if item = "fetch_data" then
    run_single_agent p "data_fetch"
      "🔍 **Data-Fetch Agent**: Retrieving your portfolio data and current market prices..."
      ["• Accessing database...", "• Fetching live prices..."]
  else if item = "analyze_drift" then
    run_single_agent p "analysis"
      "📊 **Analysis Agent**: Analyzing your portfolio drift..."
      ["• Loading your positions...", "• Calculating drift..."]
  else if item = "optimize_portfolio" then
    run_single_agent p "optimization"
      "⚙️ **Optimization Agent**: Optimizing your portfolio allocation..."
      ["• Loading risk preferences...", "• Running optimization..."]
  else if item = "explain_recommendations" then
    run_single_agent p "explainability"
      "💡 **Explainability Agent**: Explaining the rationale behind the recommendations..."
      ["• Reviewing prior recommendations...", "• Crafting explanation..."]
  else Seg.emits []

/-- The multi-intent sequence loop with its `has_data` flag,
src/streaming_agent_chat.py:440-460. -/
def intent_sequence (p : StreamParams) : Bool → List String → Seg
  | _, [] => Seg.emits []
  | hasData, item :: rest =>
    let needPre := (item = "analyze_drift" ∨ item = "optimize_portfolio") ∧ hasData = false
    let pre := if needPre then refresh_single p else Seg.emits []
    let hd := hasData || (decide needPre) || (item = "fetch_data" : Bool)
    Seg.seq pre (Seg.seq (single_for p item) (intent_sequence p hd rest))

/-- The `fetch_data` branch of the router dispatch,
src/streaming_agent_chat.py:220-230. -/
def branch_fetch_data (p : StreamParams) : Seg :=
  Seg.seq
    (Seg.emits [
      create_stream_message "agent_start" "data_fetch"
        "🔍 **Data-Fetch Agent**: Retrieving your current portfolio data...",
      create_stream_message "agent_thinking" "data_fetch"
        "• Accessing your portfolio information..."])
    (Seg.call (p.agentRun "data_fetch" ("Session ID: " ++ p.sessionId ++ ". Fetch current portfolio data."))
      (fun r => Seg.emits [create_stream_message "agent_response" "data_fetch" r]))

/-- The `analyze_drift` branch, src/streaming_agent_chat.py:233-247. -/
def branch_analyze_drift (p : StreamParams) : Seg :=
  Seg.seq
    (Seg.emits [create_stream_message "agent_start" "data_fetch"
      "🔍 **Data-Fetch Agent**: First, let me get your latest portfolio data..."])
    (Seg.call (p.agentRun "data_fetch" ("Session ID: " ++ p.sessionId ++ ". Quick data refresh for drift analysis."))
      (fun _ =>
        Seg.seq
          (Seg.emits [create_stream_message "agent_start" "analysis"
            "📊 **Analysis Agent**: Analyzing your portfolio drift..."])
          (Seg.call (p.agentRun "analysis" ("Session ID: " ++ p.sessionId ++ ". Analyze drift in portfolio."))
            (fun r => Seg.emits [create_stream_message "agent_response" "analysis" r]))))

/-- The optimize-branch prompt of src/streaming_agent_chat.py:298-305
(and 633-640). -/
def optimize_prompt (p : StreamParams) (risk goal horizon : String) : String :=
  "Call optimize_portfolio with:\n1. session_id=’" ++ p.sessionId ++
  "’\n2. risk_tolerance=’" ++ risk ++ "’\n3. investment_goal=’" ++ goal ++
  "’\n4. time_horizon=’" ++ horizon ++
  "’\n\nCurrent portfolio data has been fetched and analyzed. Please provide optimized allocation and specific trade recommendations."

/-- The `optimize_portfolio` branch, src/streaming_agent_chat.py:250-316.
On a questionnaire-fetch exception or missing questionnaire fields it
yields an `error` event and then `return`s — without a `stream_end`. -/
def branch_optimize (p : StreamParams) : Seg :=
  Seg.seq
    (Seg.emits [
      create_stream_message "agent_start" "data_fetch"
        "🔍 **Data-Fetch Agent**: First, let me get your latest portfolio data for optimization...",
      create_stream_message "agent_thinking" "data_fetch"
        "• Refreshing your portfolio data..."])
    (Seg.call (p.agentRun "data_fetch" ("Session ID: " ++ p.sessionId ++ ". Quick data refresh for optimization."))
      (fun _ =>
        match p.optQFetch with
        | .error _ =>
          Seg.stop [create_stream_message "error" "optimization"
            "❌ I had trouble accessing your questionnaire data. Please try again or complete the questionnaire if you haven’t already."]
        | .ok (risk, goal, horizon) =>
          if risk = "" ∨ goal = "" ∨ horizon = "" then
            Seg.stop [create_stream_message "error" "optimization"
              "❌ I couldn’t find your questionnaire responses. Please complete the questionnaire first so I know your risk tolerance and goals."]
          else
            Seg.seq
              (Seg.emits [create_stream_message "agent_start" "optimization"
                ("⚙️ **Optimization Agent**: Optimizing your portfolio based on your profile:\n• Risk Tolerance: "
                  ++ risk ++ "\n• Investment Goal: " ++ goal ++ "\n• Time Horizon: " ++ horizon)])
              (Seg.call (p.agentRun "optimization" (optimize_prompt p risk goal horizon))
                (fun o =>
                  Seg.seq
                    (Seg.emits [
                      create_stream_message "agent_response" "optimization" o,
                      create_stream_message "agent_start" "explainability"
                        "💡 **Explainability Agent**: Let me explain these recommendations..."])
                    (Seg.call (p.agentRun "explainability"
                        ("Explain the optimization results for risk_tolerance=’" ++ risk ++ "’ and goal=’" ++ goal ++ "’"))
                      (fun e => Seg.emits [create_stream_message "agent_response" "explainability" e]))))))

/-- The `explain_recommendations` branch,
src/streaming_agent_chat.py:319-325. -/
def branch_explain (p : StreamParams) : Seg :=
  Seg.seq
    (Seg.emits [create_stream_message "agent_start" "explainability"
      "💡 **Explainability Agent**: Let me explain the portfolio recommendations..."])
    (Seg.call (p.agentRun "explainability" ("Session ID: " ++ p.sessionId ++ ". Explain the latest recommendations."))
      (fun r => Seg.emits [create_stream_message "agent_response" "explainability" r]))

/-- The `full_analysis` branch, src/streaming_agent_chat.py:328-356. -/
def branch_full_analysis (p : StreamParams) : Seg :=
  Seg.seq
    (Seg.emits [create_stream_message "agent_start" "data_fetch"
      "🔍 **Starting Full Portfolio Analysis**\n\nFirst, let me gather your current data..."])
    (Seg.call (p.agentRun "data_fetch" ("Session ID: " ++ p.sessionId ++ ". Fetch current portfolio data."))
      (fun d =>
        Seg.seq
          (Seg.emits [
            create_stream_message "agent_response" "data_fetch" d,
            create_stream_message "agent_start" "analysis"
              "📊 **Analysis Agent**: Now analyzing your portfolio positioning..."])
          (Seg.call (p.agentRun "analysis" ("Session ID: " ++ p.sessionId ++ ". Analyze portfolio drift and risk exposure."))
            (fun a =>
              Seg.seq
                (Seg.emits [
                  create_stream_message "agent_response" "analysis" a,
                  create_stream_message "agent_start" "optimization"
                    "⚙️ **Optimization Agent**: Generating optimal allocation..."])
                (Seg.call (p.agentRun "optimization" ("Session ID: " ++ p.sessionId ++ ". Optimize portfolio based on analysis."))
                  (fun o =>
                    Seg.seq
                      (Seg.emits [
                        create_stream_message "agent_response" "optimization" o,
                        create_stream_message "agent_start" "explainability"
                          "💡 **Explainability Agent**: Let me explain these recommendations..."])
                      (Seg.call (p.agentRun "explainability" ("Session ID: " ++ p.sessionId ++ ". Explain the recommendations."))
                        (fun e => Seg.emits [create_stream_message "agent_response" "explainability" e]))))))))

/-- The first dispatch chain on a valid router intent,
src/streaming_agent_chat.py:218-356.  An intent matching none of the
branches yields nothing here. -/
def branch_valid (p : StreamParams) (ri : String) (ml : String) : Seg :=
  if ri = "fetch_data" then branch_fetch_data p
  else if ri = "analyze_drift" then branch_analyze_drift p
  else if ri = "optimize_portfolio" ∨ strIn "optimize my allocation" ml then branch_optimize p
  else if ri = "explain_recommendations" then branch_explain p
  else if ri = "full_analysis" then branch_full_analysis p
  else Seg.emits []

/-- The clarify reply, src/streaming_agent_chat.py:359-372. -/
def clarify_response (p : StreamParams) : Seg :=
  let options := if p.routerOptions = [] then
      ["Show my portfolio data", "Analyze my portfolio drift", "Optimize my allocation",
       "Explain the recommendations", "Run a full portfolio analysis"]
    else p.routerOptions
  Seg.emits [create_stream_message "agent_response" "router"
    ("I wasn’t completely sure what you wanted. Here are a few things I can do:\n\n"
      ++ bulletLines options ++ "\n\nPlease let me know which one you’d like!")]

/-- The unknown-intent fallback, src/streaming_agent_chat.py:375-418:
announce and run the data→analysis→optimization→explainability chain. -/
def branch_unknown_else (p : StreamParams) : Seg :=
  Seg.seq
    (Seg.emits [
      create_stream_message "agent_response" "router"
        "I’ll run a complete portfolio analysis to help you understand your current situation.\n\nThis will include:\n• Current portfolio data\n• Drift analysis\n• Optimization recommendations\n• Plain-English explanations\n\nStarting analysis now...",
      create_stream_message "agent_start" "data_fetch"
        "🔍 **Data-Fetch Agent**: First, let me gather your current portfolio data..."])
    (Seg.call (p.agentRun "data_fetch" ("Session ID: " ++ p.sessionId ++ ". Fetch current portfolio data."))
      (fun d =>
        Seg.seq
          (Seg.emits [
            create_stream_message "agent_response" "data_fetch" d,
            create_stream_message "agent_start" "analysis"
              "📊 **Analysis Agent**: Now analyzing your portfolio positioning..."])
          (Seg.call (p.agentRun "analysis" ("Session ID: " ++ p.sessionId ++ ". Analyze portfolio drift and risk exposure."))
            (fun a =>
              Seg.seq
                (Seg.emits [
                  create_stream_message "agent_response" "analysis" a,
                  create_stream_message "agent_start" "optimization"
                    "⚙️ **Optimization Agent**: Generating optimal allocation..."])
                (Seg.call (p.agentRun "optimization" ("Session ID: " ++ p.sessionId ++ ". Optimize portfolio based on analysis."))
                  (fun o =>
                    Seg.seq
                      (Seg.emits [
                        create_stream_message "agent_response" "optimization" o,
                        create_stream_message "agent_start" "explainability"
                          "💡 **Explainability Agent**: Let me explain these recommendations..."])
                      (Seg.call (p.agentRun "explainability" ("Session ID: " ++ p.sessionId ++ ". Explain the recommendations."))
                        (fun e => Seg.emits [create_stream_message "agent_response" "explainability" e]))))))))

/-- The clarification menu that ends the stream,
src/streaming_agent_chat.py:421-429 (identical code repeated at
491-499): orchestrator start + complete, then `stream_end`, then
`return`. -/
def block_options_end (p : StreamParams) : Seg :=
  let opts := if p.routerOptions = [] then
      ["Show portfolio data", "Analyze drift", "Optimize allocation", "Explain recommendations"]
    else p.routerOptions
  Seg.stop [
    create_stream_message "agent_start" "orchestrator"
      ("🤔 I wasn’t sure what you wanted. Here are some things I can help with:\n" ++ bulletLines opts),
    create_stream_message "agent_complete" "orchestrator" "Please tell me which one sounds right!",
    stream_end_event]

/-- The single-intent dispatch with implicit data refresh followed by
completion and `stream_end`, src/streaming_agent_chat.py:467-499
(including the repeated clarify menu of the trailing `elif`). -/
def block_single_intent (p : StreamParams) (riAfter : Option String) : Seg :=
  match riAfter with
  | some ri =>
    if ri = "fetch_data" ∨ ri = "analyze_drift" ∨ ri = "optimize_portfolio" ∨ ri = "explain_recommendations" then
      Seg.seq (if ri = "fetch_data" then Seg.emits [] else refresh_single p)
        (Seg.seq (single_for p ri)
          (Seg.stop [
            create_stream_message "agent_complete" "orchestrator"
              "✅ Task complete. Let me know what you would like to do next!",
            stream_end_event]))
    else if ri = "clarify" ∨ ri = "unknown" then block_options_end p
    else Seg.emits []
  | none => block_options_end p

/-- `full_workflow_triggers`, src/streaming_agent_chat.py:503-507. -/
def full_workflow_triggers : List String :=
  ["start", "begin", "analysis", "full", "complete", "comprehensive",
   "go ahead", "next step", "continue", "proceed", "do next",
   "diversify", "improve", "better performance"]

/-- `analysis_triggers`, src/streaming_agent_chat.py:510-513. -/
def analysis_triggers : List String :=
  ["drift", "analyze", "allocation", "target", "balance", "how am i doing",
   "performance", "review", "check", "deviation", "off track"]

/-- `optimization_triggers`, src/streaming_agent_chat.py:516-519. -/
def optimization_triggers : List String :=
  ["optimize", "rebalance", "improve", "better", "recommendations",
   "changes", "adjust", "modify", "diversify", "portfolio optimization"]

/-- `explanation_triggers`, src/streaming_agent_chat.py:522-525. -/
def explanation_triggers : List String :=
  ["explain", "why", "reason", "rationale", "understand", "meaning",
   "justification", "logic", "breakdown"]

/-- The compact optimization summary fed to the explanation prompt,
src/streaming_agent_chat.py:668: newlines flattened, truncated to 800
characters, single quotes removed. -/
def summary_of (s : String) : String :=
  (((s.replace "\n" " ").take 800).replace (String.singleton (Char.ofNat 39)) "")

/-- The legacy full multi-agent workflow,
src/streaming_agent_chat.py:550-684. -/
def legacy_full_workflow (p : StreamParams) (risk goal horizon : String) : Seg :=
  Seg.seq
    (Seg.emits [
      create_stream_message "agent_start" "orchestrator"
        "🎭 **Orchestrator**: Perfect! I’ll run a complete portfolio analysis and optimization for you.",
      create_stream_message "agent_thinking" "orchestrator"
        "**Step 1**: Coordinating with Data-Fetch Agent to gather your portfolio information...",
      create_stream_message "agent_start" "data_fetch"
        "🔍 **Data-Fetch Agent**: Retrieving your portfolio data and current market prices...",
      create_stream_message "agent_thinking" "data_fetch"
        "• Accessing your investment profile from database...",
      create_stream_message "agent_thinking" "data_fetch"
        "• Fetching live market prices for your holdings..."])
    (Seg.call (p.agentRun "data_fetch"
        ("Use supabase_fetch tool to get session data for " ++ p.sessionId ++
         ", then use fetch_portfolio_data to get live market prices. Show actual portfolio holdings and current prices."))
      (fun d =>
        Seg.seq
          (Seg.emits [
            create_stream_message "agent_result" "data_fetch" (extract_clean_content d),
            create_stream_message "agent_thinking" "orchestrator"
              "**Step 2**: Now analyzing your portfolio drift and risk exposure...",
            create_stream_message "agent_start" "analysis"
              "📊 **Analysis Agent**: Calculating how your portfolio has drifted from your target allocation...",
            create_stream_message "agent_thinking" "analysis"
              "• Comparing current allocations vs. target percentages...",
            create_stream_message "agent_thinking" "analysis"
              "• Evaluating risk exposure for your investment goals...",
            create_stream_message "agent_thinking" "analysis"
              "• Identifying areas that need rebalancing..."])
          (Seg.call (p.agentRun "analysis"
              ("First, retrieve the user’s risk_tolerance from Supabase via supabase_fetch (if needed). Then call analyze_portfolio_drift with session_id=’"
                ++ p.sessionId ++ "’ and the risk_tolerance string. Output the drift breakdown and your recommendation based on the tool result."))
            (fun a =>
              Seg.seq
                (Seg.emits [
                  create_stream_message "agent_result" "analysis" (extract_clean_content a),
                  create_stream_message "agent_thinking" "orchestrator"
                    "**Step 3**: Optimizing your portfolio allocation for better performance...",
                  create_stream_message "agent_start" "optimization"
                    "⚙️ **Optimization Agent**: Running advanced portfolio optimization algorithms...",
                  create_stream_message "agent_thinking" "optimization"
                    "• Loading your risk profile and investment timeline...",
                  create_stream_message "agent_thinking" "optimization"
                    "• Running Markowitz mean-variance optimization...",
                  create_stream_message "agent_thinking" "optimization"
                    "• Generating specific trade recommendations..."])
                (Seg.call (p.agentRun "optimization" (optimize_prompt p risk goal horizon))
                  (fun o =>
                    Seg.seq
                      (Seg.emits [
                        create_stream_message "agent_result" "optimization" (extract_clean_content o),
                        create_stream_message "agent_thinking" "orchestrator"
                          "**Step 4**: Explaining the reasoning behind these recommendations...",
                        create_stream_message "agent_start" "explainability"
                          "💡 **Explainability Agent**: Let me explain why these changes will improve your portfolio...",
                        create_stream_message "agent_thinking" "explainability"
                          "• Connecting recommendations to your risk tolerance...",
                        create_stream_message "agent_thinking" "explainability"
                          "• Explaining how this improves diversification...",
                        create_stream_message "agent_thinking" "explainability"
                          "• Providing plain-English rationale..."])
                      (Seg.call (p.agentRun "explainability"
                          ("Use explain_recommendations tool. Optimization result: " ++
                            summary_of (extract_clean_content o) ++ ". Risk tolerance: " ++ risk ++
                            ". Investment goal: " ++ goal ++
                            ". Explain why this allocation makes sense in plain English."))
                        (fun e =>
                          Seg.emits [
                            create_stream_message "agent_result" "explainability" (extract_clean_content e),
                            create_stream_message "agent_complete" "orchestrator"
                              "🎯 **Complete**: Your portfolio analysis is finished! You now have specific recommendations with full explanations. Feel free to ask follow-up questions!"]))))))))

/-- The legacy trigger routing, src/streaming_agent_chat.py:501-742. -/
def legacy_block (p : StreamParams) (ml : String) : Seg :=
  let risk := p.legacyQ.1
  let goal := p.legacyQ.2.1
  let _horizon := p.legacyQ.2.2
  if full_workflow_triggers.any (fun t => strIn t ml)
      ∨ (analysis_triggers ++ optimization_triggers).any (fun t => strIn t ml) then
    legacy_full_workflow p risk goal p.legacyQ.2.2
  else if explanation_triggers.any (fun t => strIn t ml) then
    Seg.seq
      (Seg.emits [create_stream_message "agent_start" "explainability"
        "💡 **Explainability Agent**: I’ll explain the reasoning behind the recommendations..."])
      (Seg.call (p.agentRun "explainability" ("Session ID: " ++ p.sessionId ++ ". User request: " ++ p.userMessage))
        (fun r => Seg.emits [create_stream_message "agent_result" "explainability" (extract_clean_content r)]))
  else if strIn "data" ml ∨ strIn "show me" ml ∨ strIn "current" ml then
    Seg.seq
      (Seg.emits [
        create_stream_message "agent_start" "data_fetch"
          "🔍 **Data-Fetch Agent**: Retrieving your current portfolio information...",
        create_stream_message "agent_thinking" "data_fetch" "• Connecting to database...",
        create_stream_message "agent_thinking" "data_fetch" "• Fetching live market prices..."])
      (Seg.call (p.agentRun "data_fetch" ("Session ID: " ++ p.sessionId ++ ". User request: " ++ p.userMessage))
        (fun r => Seg.emits [create_stream_message "agent_result" "data_fetch" (extract_clean_content r)]))
  else
    Seg.seq
      (Seg.emits [
        create_stream_message "agent_thinking" "orchestrator"
          "🎭 **Orchestrator**: I understand you want help with your portfolio. Let me start the analysis...",
        create_stream_message "agent_start" "orchestrator"
          "🚀 **Starting Portfolio Analysis**: I’ll analyze your portfolio and provide optimization recommendations automatically!",
        create_stream_message "agent_thinking" "orchestrator"
          "Initiating complete portfolio analysis workflow...",
        create_stream_message "agent_start" "data_fetch"
          "🔍 **Data-Fetch Agent**: Starting with your portfolio data retrieval..."])
      (Seg.call (p.agentRun "data_fetch" ("Session ID: " ++ p.sessionId ++ ". Retrieve portfolio data to begin analysis."))
        (fun r => Seg.emits [
          create_stream_message "agent_result" "data_fetch" (extract_clean_content r),
          create_stream_message "agent_thinking" "orchestrator"
            "Data retrieved! Continuing to portfolio drift analysis..."]))

/-- The generator body of `create_agent_stream` inside its `try`, up to
(but not including) the final `stream_end` yield:
src/streaming_agent_chat.py:115-742, assembled in source order: router
dispatch (218-418), the early clarify exit (421-429), the multi-intent
sequence (434-465, including its mutation of `router_intent` to
`full_analysis`), the single-intent block (467-499), and the legacy
trigger routing (501-742). -/
def stream_pre (p : StreamParams) : Seg :=
  let ml := lowerStr p.userMessage
  let s1 :=
    match p.routerIntent with
    | some ri =>
      if ri ≠ "" ∧ ri ≠ "clarify" ∧ ri ≠ "unknown" then branch_valid p ri ml
      else if ri = "clarify" then clarify_response p
      else branch_unknown_else p
    | none => branch_unknown_else p
  let s2 :=
    if p.routerIntent = some "clarify" ∨ p.routerIntent = some "unknown" ∨ p.routerIntent = none
    then block_options_end p
    else Seg.emits []
  let il := intents_list_of p
  let s3 :=
    if il ≠ [] ∧ ¬ ("full_analysis" ∈ il) then
      Seg.seq (intent_sequence p false il)
        (Seg.stop [
          create_stream_message "agent_complete" "orchestrator"
            "✅ Sequence complete. Let me know what else I can help with!",
          stream_end_event])
    else Seg.emits []
  let riAfter := if il ≠ [] ∧ "full_analysis" ∈ il then some "full_analysis" else p.routerIntent
  let s4 := block_single_intent p riAfter
  let s5 := legacy_block p ml
  Seg.seq s1 (Seg.seq s2 (Seg.seq s3 (Seg.seq s4 s5)))

/-- The whole generator body inside its `try`: the dispatch above
followed by the final `stream_end` yield of
src/streaming_agent_chat.py:745 (reached only when control falls through
to the end of the body). -/
def stream_body (p : StreamParams) : Seg :=
  Seg.seq (stream_pre p) (Seg.emits [stream_end_event])

/-- The event sequence produced by one run of `create_agent_stream`,
src/streaming_agent_chat.py:31-749: the body's events, and — when the
body raises — the single bare `error` event of the top-level `except`
(line 749), with no `stream_end` after it. -/
def create_agent_stream (p : StreamParams) : List StreamEvent :=
  let b := stream_body p
  match b.ctl with
  | .raised e => b.events ++ [stream_error_event e]
  | _ => b.events

/-- The event-type vocabulary of the wire contract (spec section 6). -/
def event_type_vocab : List String :=
  ["agent_start", "agent_thinking", "agent_result", "agent_response",
   "agent_complete", "error", "stream_end"]

/-- Scenario: the router resolves `optimize_portfolio` but the stored
questionnaire has empty fields; all agent calls succeed. -/
def c9MissingQuestionnaire : StreamParams where
  sessionId := "s1"
  userMessage := "please rebalance"
  routerIntent := some "optimize_portfolio"
  routerIntents := none
  routerOptions := []
  agentRun := fun _ _ => .ok "done"
  optQFetch := .ok ("", "", "")
  legacyQ := ("3 - Moderate", "Growth", "5+ years")

/-- Scenario: the router resolves `fetch_data` but the data-fetch agent
raises (for example a network failure inside the tool call). -/
def c9AgentRaises : StreamParams where
  sessionId := "s1"
  userMessage := "show my data"
  routerIntent := some "fetch_data"
  routerIntents := some []
  routerOptions := []
  agentRun := fun _ _ => .error "boom"
  optQFetch := .ok ("3 - Moderate", "Growth", "5+ years")
  legacyQ := ("3 - Moderate", "Growth", "5+ years")

/-- Every event of the list has a type from the wire vocabulary. -/
def TypesOk (es : List StreamEvent) : Prop :=
  ∀ e ∈ es, e.type ∈ event_type_vocab

/-- The list is nonempty and its last event is either the `stream_end`
event or an `error`-typed event. -/
def EndsGood (es : List StreamEvent) : Prop :=
  ∃ e, es.getLast? = some e ∧ (e = stream_end_event ∨ e.type = "error")

/-- Invariant of a generator-body piece: all its event types are in the
vocabulary, and if it ends the generator (`return`) its last event is a
`stream_end` or an `error`. -/
def GoodSeg (s : Seg) : Prop :=
  TypesOk s.events ∧ (s.ctl = Ctl.halt → EndsGood s.events)

/-
Theorems.  Generic helper lemmas come first, then one theorem per claim
(with its witness or counterexample where required).
-/

theorem foldl_add_map {α : Type} (g : α → ℚ) (l : List α) (a : ℚ) :
    l.foldl (fun acc x => acc + g x) a = a + (l.map g).sum := by
  induction l generalizing a with
  | nil => simp
  | cons x xs ih => simp [ih, add_assoc]

theorem listStartsWith_mono (pat : List Char) :
    ∀ l r : List Char, listStartsWith pat l = true →
      listStartsWith pat (l ++ r) = true := by
  induction pat with
  | nil => intro l r _; rfl
  | cons c cs ih =>
    intro l r h
    cases l with
    | nil => exact absurd h (by simp [listStartsWith])
    | cons b bs =>
      simp only [listStartsWith, Bool.and_eq_true] at h ⊢
      exact ⟨h.1, ih bs r h.2⟩

theorem listStartsWith_self (pat rest : List Char) :
    listStartsWith pat (pat ++ rest) = true := by
  induction pat with
  | nil => rfl
  | cons c cs ih => simp [listStartsWith, ih]

theorem listHasRun_mono_right (pat : List Char) :
    ∀ l r : List Char, listHasRun pat l = true →
      listHasRun pat (l ++ r) = true := by
  intro l
  induction l with
  | nil =>
    intro r h
    simp only [listHasRun, List.isEmpty_iff] at h
    subst h
    cases r with
    | nil => rfl
    | cons c cs => simp [listHasRun, listStartsWith]
  | cons c cs ih =>
    intro r h
    simp only [listHasRun, Bool.or_eq_true] at h ⊢
    rcases h with h | h
    · exact Or.inl (listStartsWith_mono pat (c :: cs) r h)
    · exact Or.inr (ih r h)

theorem listHasRun_append_right (pat : List Char) :
    ∀ l r : List Char, listHasRun pat r = true →
      listHasRun pat (l ++ r) = true := by
  intro l
  induction l with
  | nil => intro r h; exact h
  | cons c cs ih =>
    intro r h
    simp only [List.cons_append, listHasRun, Bool.or_eq_true]
    exact Or.inr (ih r h)

theorem str_data_append (s t : String) : (s ++ t).data = s.data ++ t.data := rfl

theorem listHasRun_nilpat (l : List Char) : listHasRun [] l = true := by
  cases l with
  | nil => rfl
  | cons c cs => simp [listHasRun, listStartsWith]

theorem strIn_self_append (t u : String) : strIn t (t ++ u) = true := by
  unfold strIn
  rw [str_data_append]
  cases ht : t.data with
  | nil => exact listHasRun_nilpat _
  | cons c cs =>
    simp only [List.cons_append, listHasRun, Bool.or_eq_true]
    exact Or.inl (by
      have := listStartsWith_self (c :: cs) u.data
      simpa using this)

theorem strIn_joinComma (t : String) (l : List String) (h : t ∈ l) :
    strIn t (joinComma l) = true := by
  induction l with
  | nil => cases h
  | cons x xs ih =>
    rcases List.mem_cons.mp h with rfl | hm
    · cases xs with
      | nil =>
        show strIn t t = true
        have := strIn_self_append t ""
        simpa using this
      | cons y ys =>
        show strIn t (t ++ ", " ++ joinComma (y :: ys)) = true
        have h2 : t ++ ", " ++ joinComma (y :: ys) = t ++ (", " ++ joinComma (y :: ys)) := by
          rw [String.append_assoc]
        rw [h2]
        exact strIn_self_append t _
    · cases xs with
      | nil => cases hm
      | cons y ys =>
        show strIn t (x ++ ", " ++ joinComma (y :: ys)) = true
        unfold strIn
        rw [str_data_append, str_data_append]
        rw [List.append_assoc]
        exact listHasRun_append_right _ _ _
          (listHasRun_append_right _ _ _ (ih hm))

/-- C1 (amended): both classifiers evaluate case-insensitive substring
rules in the stated precedence order (first match wins, default
US Equity) — but the two variants differ in their keyword sets beyond
the acknowledged `"usd"` difference: the drift variant maps labels
containing `"bond"` or `"fixed income"` to Bonds and `"cash"` or
`"usd"` to Cash, while the optimize variant maps only `"bond"` to Bonds
and only `"cash"` to Cash.  Stated as a complete characterization of
both variants: each bucket is returned exactly when its rule fires and
no earlier rule does. -/
theorem C1_classifier_precedence_amended (s : String) :
    (classify_drift s = Bucket.bonds ↔
      (strIn "bond" (lowerStr s) || strIn "fixed income" (lowerStr s)) = true)
  ∧ (classify_drift s = Bucket.realEstate ↔
      ((strIn "bond" (lowerStr s) || strIn "fixed income" (lowerStr s)) = false
        ∧ (strIn "real estate" (lowerStr s) || strIn "reit" (lowerStr s)) = true))
  ∧ (classify_drift s = Bucket.emergingMarkets ↔
      ((strIn "bond" (lowerStr s) || strIn "fixed income" (lowerStr s)) = false
        ∧ (strIn "real estate" (lowerStr s) || strIn "reit" (lowerStr s)) = false
        ∧ strIn "emerging" (lowerStr s) = true))
  ∧ (classify_drift s = Bucket.intlEquity ↔
      ((strIn "bond" (lowerStr s) || strIn "fixed income" (lowerStr s)) = false
        ∧ (strIn "real estate" (lowerStr s) || strIn "reit" (lowerStr s)) = false
        ∧ strIn "emerging" (lowerStr s) = false
        ∧ (strIn "international" (lowerStr s) || strIn "developed" (lowerStr s)) = true))
  ∧ (classify_drift s = Bucket.cash ↔
      ((strIn "bond" (lowerStr s) || strIn "fixed income" (lowerStr s)) = false
        ∧ (strIn "real estate" (lowerStr s) || strIn "reit" (lowerStr s)) = false
        ∧ strIn "emerging" (lowerStr s) = false
        ∧ (strIn "international" (lowerStr s) || strIn "developed" (lowerStr s)) = false
        ∧ (strIn "cash" (lowerStr s) || strIn "usd" (lowerStr s)) = true))
  ∧ (classify_drift s = Bucket.usEquity ↔
      ((strIn "bond" (lowerStr s) || strIn "fixed income" (lowerStr s)) = false
        ∧ (strIn "real estate" (lowerStr s) || strIn "reit" (lowerStr s)) = false
        ∧ strIn "emerging" (lowerStr s) = false
        ∧ (strIn "international" (lowerStr s) || strIn "developed" (lowerStr s)) = false
        ∧ (strIn "cash" (lowerStr s) || strIn "usd" (lowerStr s)) = false))
  ∧ (classify_opt s = Bucket.bonds ↔ strIn "bond" (lowerStr s) = true)
  ∧ (classify_opt s = Bucket.realEstate ↔
      (strIn "bond" (lowerStr s) = false
        ∧ (strIn "real estate" (lowerStr s) || strIn "reit" (lowerStr s)) = true))
  ∧ (classify_opt s = Bucket.emergingMarkets ↔
      (strIn "bond" (lowerStr s) = false
        ∧ (strIn "real estate" (lowerStr s) || strIn "reit" (lowerStr s)) = false
        ∧ strIn "emerging" (lowerStr s) = true))
  ∧ (classify_opt s = Bucket.intlEquity ↔
      (strIn "bond" (lowerStr s) = false
        ∧ (strIn "real estate" (lowerStr s) || strIn "reit" (lowerStr s)) = false
        ∧ strIn "emerging" (lowerStr s) = false
        ∧ (strIn "international" (lowerStr s) || strIn "developed" (lowerStr s)) = true))
  ∧ (classify_opt s = Bucket.cash ↔
      (strIn "bond" (lowerStr s) = false
        ∧ (strIn "real estate" (lowerStr s) || strIn "reit" (lowerStr s)) = false
        ∧ strIn "emerging" (lowerStr s) = false
        ∧ (strIn "international" (lowerStr s) || strIn "developed" (lowerStr s)) = false
        ∧ strIn "cash" (lowerStr s) = true))
  ∧ (classify_opt s = Bucket.usEquity ↔
      (strIn "bond" (lowerStr s) = false
        ∧ (strIn "real estate" (lowerStr s) || strIn "reit" (lowerStr s)) = false
        ∧ strIn "emerging" (lowerStr s) = false
        ∧ (strIn "international" (lowerStr s) || strIn "developed" (lowerStr s)) = false
        ∧ strIn "cash" (lowerStr s) = false)) := by
  simp only [classify_drift, classify_opt]
  split_ifs <;> simp_all <;> aesop

/-- C1 counterexample to the claim as stated: the optimize path's
`classify` does not test `"fixed income"`, so the label
`"Fixed Income"` maps to US Equity there, while the drift path's
`classify` maps it to Bonds — the stated precedence (rule 1: "bond" or
"fixed income" → Bonds) does not hold for both variants. -/
theorem C1_fixed_income_counterexample :
    classify_opt "Fixed Income" = Bucket.usEquity
  ∧ classify_drift "Fixed Income" = Bucket.bonds
  ∧ Bucket.usEquity ≠ Bucket.bonds := by decide

/-- C2: on any bucket-total vector and any risk level's target row, the
drift path computes `actualPct[b] = bucketTotal[b] / total * 100`, the
accumulated `total_abs_drift` equals the sum of `|actual - target|` over
all six buckets, and the report says "within acceptable range" exactly
when `total_abs_drift < 10` (so 9.9 is acceptable while 10.0 and 10.1
recommend rebalancing). -/
theorem C2_drift_arithmetic (buckets : Bucket → ℚ) (lvl : ℤ)
    (h : totalVal buckets ≠ 0) :
    (∀ b, pct_weights buckets b = buckets b / totalVal buckets * 100)
  ∧ total_abs_drift buckets (tgtFullLookup lvl)
      = (Bucket.all.map (fun b => |pct_weights buckets b - tgtFullLookup lvl b|)).sum
  ∧ (∀ tad : ℚ, drift_recommendation tad = "Drift is within acceptable range." ↔ tad < 10)
  ∧ drift_recommendation 9.9 = "Drift is within acceptable range."
  ∧ drift_recommendation 10 = "Rebalancing recommended to realign with targets."
  ∧ drift_recommendation 10.1 = "Rebalancing recommended to realign with targets." := by
  refine ⟨fun b => rfl, ?_, ?_, ?_, ?_, ?_⟩
  · unfold total_abs_drift
    rw [foldl_add_map, zero_add]
  · intro tad
    unfold drift_recommendation
    split_ifs with h'
    · simp [h']
    · constructor
      · intro hs; exact absurd hs (by decide)
      · intro hlt; exact absurd hlt h'
  · norm_num [drift_recommendation]
  · norm_num [drift_recommendation]
  · norm_num [drift_recommendation]

/-- C2 witness: the theorem applied to the all-100 bucket vector (total
600) at risk level 3. -/
theorem C2_drift_arithmetic_witness :
    totalVal (fun _ => (100 : ℚ)) ≠ 0
  ∧ ((∀ b, pct_weights (fun _ => (100 : ℚ)) b
        = (fun _ => (100 : ℚ)) b / totalVal (fun _ => (100 : ℚ)) * 100)
    ∧ total_abs_drift (fun _ => (100 : ℚ)) (tgtFullLookup 3)
        = (Bucket.all.map
            (fun b => |pct_weights (fun _ => (100 : ℚ)) b - tgtFullLookup 3 b|)).sum
    ∧ (∀ tad : ℚ, drift_recommendation tad = "Drift is within acceptable range." ↔ tad < 10)
    ∧ drift_recommendation 9.9 = "Drift is within acceptable range."
    ∧ drift_recommendation 10 = "Rebalancing recommended to realign with targets."
    ∧ drift_recommendation 10.1 = "Rebalancing recommended to realign with targets.") :=
  ⟨by norm_num [totalVal, Bucket.all],
   C2_drift_arithmetic (fun _ => (100 : ℚ)) 3 (by norm_num [totalVal, Bucket.all])⟩

/-- C3: with a non-zero total, the optimize path emits, per target
bucket, `delta = round(target - actual, 1)`; a bucket with `|delta| < 1`
yields no trade; every surviving bucket yields `Buy` if `delta > 0` else
`Sell` with magnitude `|delta|`; the trade list is empty (reported as
"already aligned") exactly when every bucket is suppressed; and in
particular target 40 vs actual 39.4 gives `|delta| = 0.6 < 1`. -/
theorem C3_trade_deltas_correct (prices : String → Option ℚ)
    (positions : Positions) (lvl : ℤ)
    (h : totalVal (opt_buckets prices positions) ≠ 0) :
    optimize_core prices positions lvl
      = .ok (trade_deltas
          (fun b => opt_buckets prices positions b
            / totalVal (opt_buckets prices positions) * 100)
          (tgtOptLookup lvl))
  ∧ (∀ (w tg : Bucket → ℚ) (t : Trade),
      t ∈ trade_deltas w tg ↔
        ∃ b ∈ Bucket.all, ¬ |round1 (tg b - w b)| < 1
          ∧ t = ⟨if 0 < round1 (tg b - w b) then "Buy" else "Sell",
                 |round1 (tg b - w b)|, b⟩)
  ∧ (∀ w tg : Bucket → ℚ,
      trade_deltas w tg = [] ↔ ∀ b ∈ Bucket.all, |round1 (tg b - w b)| < 1)
  ∧ round1 ((40 : ℚ) - 39.4) = 0.6
  ∧ |round1 ((40 : ℚ) - 39.4)| < 1 := by
  have hr : round1 ((40 : ℚ) - 39.4) = 0.6 := by norm_num [round1, round_eq]
  refine ⟨?_, ?_, ?_, hr, ?_⟩
  · simp only [optimize_core]
    rw [if_neg h]
  · intro w tg t
    simp only [trade_deltas, List.mem_filterMap]
    constructor
    · rintro ⟨b, hb, hf⟩
      by_cases hc : |round1 (tg b - w b)| < 1
      · simp [hc] at hf
      · refine ⟨b, hb, hc, ?_⟩
        simp only [if_neg hc, Option.some.injEq] at hf
        exact hf.symm
    · rintro ⟨b, hb, hc, rfl⟩
      exact ⟨b, hb, by simp [hc]⟩
  · intro w tg
    simp only [trade_deltas, List.filterMap_eq_nil_iff]
    constructor
    · intro H b hb
      have := H b hb
      by_cases hc : |round1 (tg b - w b)| < 1
      · exact hc
      · simp [hc] at this
    · intro H b hb
      simp [H b hb]
  · rw [hr, abs_of_nonneg (by norm_num : (0:ℚ) ≤ (0.6:ℚ))]
    norm_num

/-- C3 witness: the theorem applied to one all-cash portfolio of $100
(total 100 ≠ 0) at risk level 3, projecting its first conjunct. -/
theorem C3_trade_deltas_witness :
    optimize_core (fun _ => none) [("Cash", [⟨"", 100, "usd"⟩])] 3
      = .ok (trade_deltas
          (fun b => opt_buckets (fun _ => none) [("Cash", [⟨"", 100, "usd"⟩])] b
            / totalVal (opt_buckets (fun _ => none) [("Cash", [⟨"", 100, "usd"⟩])]) * 100)
          (tgtOptLookup 3)) :=
  (C3_trade_deltas_correct (fun _ => none) [("Cash", [⟨"", 100, "usd"⟩])] 3 (by
    have h1 : strIn "balanced" (lowerStr "Cash") = false := by decide
    have h2 : classify_opt "Cash" = Bucket.cash := by decide
    have e1 : Bucket.usEquity ≠ Bucket.cash := by decide
    have e2 : Bucket.intlEquity ≠ Bucket.cash := by decide
    have e3 : Bucket.emergingMarkets ≠ Bucket.cash := by decide
    have e4 : Bucket.bonds ≠ Bucket.cash := by decide
    have e5 : Bucket.realEstate ≠ Bucket.cash := by decide
    norm_num [totalVal, Bucket.all, opt_buckets, taggedRows, opt_contrib, opt_row_value,
      h1, h2, e1, e2, e3, e4, e5])).1

/-- C4: for every risk level 1–5 the drift table `target_map_full`, the
optimize table `target_map`, and the spec's table agree row for row, and
each row's six percentages sum to exactly 100. -/
theorem C4_target_table_rows (lvl : ℤ) (h1 : 1 ≤ lvl) (h2 : lvl ≤ 5) :
    ∃ row : Bucket → ℚ,
      target_map_full lvl = some row
    ∧ target_map lvl = some row
    ∧ spec_target_table lvl = some row
    ∧ (Bucket.all.map row).sum = 100 := by
  interval_cases lvl
  · refine ⟨tmf1, rfl, ?_, ?_, ?_⟩
    · rw [show target_map 1 = some tm1 from rfl,
        show tm1 = tmf1 from funext fun b => by cases b <;> rfl]
    · rw [show spec_target_table 1 = some spec_row1 from rfl,
        show spec_row1 = tmf1 from funext fun b => by cases b <;> rfl]
    · norm_num [Bucket.all, tmf1]
  · refine ⟨tmf2, rfl, ?_, ?_, ?_⟩
    · rw [show target_map 2 = some tm2 from rfl,
        show tm2 = tmf2 from funext fun b => by cases b <;> rfl]
    · rw [show spec_target_table 2 = some spec_row2 from rfl,
        show spec_row2 = tmf2 from funext fun b => by cases b <;> rfl]
    · norm_num [Bucket.all, tmf2]
  · refine ⟨tmf3, rfl, ?_, ?_, ?_⟩
    · rw [show target_map 3 = some tm3 from rfl,
        show tm3 = tmf3 from funext fun b => by cases b <;> rfl]
    · rw [show spec_target_table 3 = some spec_row3 from rfl,
        show spec_row3 = tmf3 from funext fun b => by cases b <;> rfl]
    · norm_num [Bucket.all, tmf3]
  · refine ⟨tmf4, rfl, ?_, ?_, ?_⟩
    · rw [show target_map 4 = some tm4 from rfl,
        show tm4 = tmf4 from funext fun b => by cases b <;> rfl]
    · rw [show spec_target_table 4 = some spec_row4 from rfl,
        show spec_row4 = tmf4 from funext fun b => by cases b <;> rfl]
    · norm_num [Bucket.all, tmf4]
  · refine ⟨tmf5, rfl, ?_, ?_, ?_⟩
    · rw [show target_map 5 = some tm5 from rfl,
        show tm5 = tmf5 from funext fun b => by cases b <;> rfl]
    · rw [show spec_target_table 5 = some spec_row5 from rfl,
        show spec_row5 = tmf5 from funext fun b => by cases b <;> rfl]
    · norm_num [Bucket.all, tmf5]

/-- C4 witness: the theorem applied at risk level 3. -/
theorem C4_target_table_rows_witness :
    ∃ row : Bucket → ℚ,
      target_map_full 3 = some row
    ∧ target_map 3 = some row
    ∧ spec_target_table 3 = some row
    ∧ (Bucket.all.map row).sum = 100 :=
  C4_target_table_rows 3 (by norm_num) (by norm_num)

/-- C5: for any asset class whose label contains "balanced"
(case-insensitive), each row's value is split 60% to US Equity and 40%
to Bonds in both valuation paths (no other bucket receives anything),
and the scenario from the spec — a "Balanced Portfolio" class with one
USD row of $10,000 — puts exactly $6,000 in US Equity and $4,000 in
Bonds on both paths. -/
theorem C5_balanced_split (prices : String → Option ℚ) (cls : String)
    (row : PositionRow) (hb : strIn "balanced" (lowerStr cls) = true) :
    drift_contrib prices cls row Bucket.usEquity
      = ((drift_row_value prices row).getD 0) * 0.6
  ∧ drift_contrib prices cls row Bucket.bonds
      = ((drift_row_value prices row).getD 0) * 0.4
  ∧ (∀ b, b ≠ Bucket.usEquity → b ≠ Bucket.bonds →
      drift_contrib prices cls row b = 0)
  ∧ opt_contrib prices cls row Bucket.usEquity = opt_row_value prices row * 0.6
  ∧ opt_contrib prices cls row Bucket.bonds = opt_row_value prices row * 0.4
  ∧ (∀ b, b ≠ Bucket.usEquity → b ≠ Bucket.bonds →
      opt_contrib prices cls row b = 0)
  ∧ drift_buckets (fun _ => none) [("Balanced Portfolio", [⟨"", 10000, "usd"⟩])]
      Bucket.usEquity = 6000
  ∧ drift_buckets (fun _ => none) [("Balanced Portfolio", [⟨"", 10000, "usd"⟩])]
      Bucket.bonds = 4000
  ∧ opt_buckets (fun _ => none) [("Balanced Portfolio", [⟨"", 10000, "usd"⟩])]
      Bucket.usEquity = 6000
  ∧ opt_buckets (fun _ => none) [("Balanced Portfolio", [⟨"", 10000, "usd"⟩])]
      Bucket.bonds = 4000 := by
  have hbal : strIn "balanced" (lowerStr "Balanced Portfolio") = true := by decide
  have hne : Bucket.bonds ≠ Bucket.usEquity := by decide
  refine ⟨?_, ?_, ?_, ?_, ?_, ?_, ?_, ?_, ?_, ?_⟩
  · unfold drift_contrib
    cases hv : drift_row_value prices row with
    | none => norm_num
    | some v => simp [hb]
  · unfold drift_contrib
    cases hv : drift_row_value prices row with
    | none => norm_num
    | some v => simp [hb]
  · intro b h1 h2
    unfold drift_contrib
    cases hv : drift_row_value prices row with
    | none => rfl
    | some v => simp [hb, h1, h2]
  · unfold opt_contrib
    simp [hb]
  · unfold opt_contrib
    simp [hb]
  · intro b h1 h2
    unfold opt_contrib
    simp [hb, h1, h2]
  · norm_num [drift_buckets, taggedRows, drift_contrib, drift_row_value, hbal]
  · norm_num [drift_buckets, taggedRows, drift_contrib, drift_row_value, hbal, hne]
  · norm_num [opt_buckets, taggedRows, opt_contrib, opt_row_value, hbal]
  · norm_num [opt_buckets, taggedRows, opt_contrib, opt_row_value, hbal, hne]

/-- C5 witness: the theorem applied to the "Balanced Portfolio" label
with the $10,000 USD row, projecting the drift-path split conjuncts. -/
theorem C5_balanced_split_witness :
    drift_contrib (fun _ => none) "Balanced Portfolio" ⟨"", 10000, "usd"⟩
      Bucket.usEquity
      = ((drift_row_value (fun _ => none) (⟨"", 10000, "usd"⟩ : PositionRow)).getD 0) * 0.6 :=
  (C5_balanced_split (fun _ => none) "Balanced Portfolio" ⟨"", 10000, "usd"⟩
    (by decide)).1

/-- C6: when the computed total portfolio value is zero (and positions
are present, so the earlier missing-data guard does not fire first),
the drift consumer and the optimize consumer each return their own
distinct zero-value error message, before any division by the total is
performed. -/
theorem C6_zero_value_guard (prices : String → Option ℚ) (positions : Positions)
    (lvl : ℤ)
    (hrows : allRows positions ≠ [])
    (hd : totalVal (drift_buckets prices positions) = 0)
    (ho : totalVal (opt_buckets prices positions) = 0) :
    analyze_core prices positions lvl
      = .error "❌ Unable to compute drift — total portfolio value is zero."
  ∧ optimize_core prices positions lvl
      = .error "❌ Unable to value portfolio; cannot optimize."
  ∧ ("❌ Unable to compute drift — total portfolio value is zero."
      ≠ "❌ Unable to value portfolio; cannot optimize.") := by
  refine ⟨?_, ?_, by decide⟩
  · simp only [analyze_core]
    rw [if_neg hrows, if_pos hd]
  · simp only [optimize_core]
    rw [if_pos ho]

/-- C6 witness: the theorem applied to a nonempty positions map holding
one zero-dollar cash row (total value 0 on both paths). -/
theorem C6_zero_value_guard_witness :
    analyze_core (fun _ => none) [("Cash", [⟨"", 0, "usd"⟩])] 3
      = .error "❌ Unable to compute drift — total portfolio value is zero."
  ∧ optimize_core (fun _ => none) [("Cash", [⟨"", 0, "usd"⟩])] 3
      = .error "❌ Unable to value portfolio; cannot optimize."
  ∧ ("❌ Unable to compute drift — total portfolio value is zero."
      ≠ "❌ Unable to value portfolio; cannot optimize.") :=
  C6_zero_value_guard (fun _ => none) [("Cash", [⟨"", 0, "usd"⟩])] 3
    (by decide)
    (by norm_num [totalVal, Bucket.all, drift_buckets, taggedRows, drift_contrib,
      drift_row_value])
    (by norm_num [totalVal, Bucket.all, opt_buckets, taggedRows, opt_contrib,
      opt_row_value])

/-- C7 counterexample to the claim as stated: for `"4x aggressive"` the
leading character is the digit `'4'`, yet neither path parses a numeric
level from the string — the code runs `int()` on the whole first
whitespace token (`"4x"`), so the drift path raises `ValueError`
(aborting into its generic error handler, modelled as `none`) and the
optimize path falls back to the default 3; and for `"42 - custom"` the
parsed level is the full token value 42, not the leading digit 4. -/
theorem C7_risk_parse_counterexample :
    pyIsDigit '4' = true
  ∧ parse_risk_drift "4x aggressive" = none
  ∧ parse_risk_opt "4x aggressive" = 3
  ∧ parse_risk_opt "42 - custom" = 42
  ∧ ((3 : ℤ) ≠ 4)
  ∧ ((42 : ℤ) ≠ 4) := by decide

/-- C7 (amended): when the string is empty or its leading character is
not a digit, both paths use level 3; when the leading character is a
digit, the code parses the entire first whitespace-delimited token with
`int()` — the drift path propagates a parse failure as an error
(`none`) while the optimize path catches it and defaults to 3, and a
successful parse is used as-is on both paths (so `"42 ..."` gives 42,
not the leading digit); and any level outside 1–5 falls back to level
3's row in both target-table lookups. -/
theorem C7_risk_parse_amended (rt : String) (lvl : ℤ) :
    ((rt.isEmpty = true ∨ pyIsDigit (rt.data.headD ' ') = false) →
      parse_risk_drift rt = some 3 ∧ parse_risk_opt rt = 3)
  ∧ (∀ n : ℤ, parse_risk_drift rt = some n → parse_risk_opt rt = n)
  ∧ (parse_risk_drift rt = none → parse_risk_opt rt = 3)
  ∧ (rt.isEmpty = false → pyIsDigit (rt.data.headD ' ') = true →
      parse_risk_drift rt = pyIntOfToken ((whitespaceTokens rt).headD ""))
  ∧ ((lvl < 1 ∨ 5 < lvl) → tgtFullLookup lvl = tmf3 ∧ tgtOptLookup lvl = tm3) := by
  refine ⟨?_, ?_, ?_, ?_, ?_⟩
  · intro h
    have hdrift : parse_risk_drift rt = some 3 := by
      unfold parse_risk_drift
      rcases h with h | h
      · rw [if_pos h]
      · by_cases he : rt.isEmpty
        · rw [if_pos he]
        · rw [if_neg (by simp [he]), if_neg (by rw [h]; decide)]
    exact ⟨hdrift, by unfold parse_risk_opt; rw [hdrift]; rfl⟩
  · intro n h
    unfold parse_risk_opt
    rw [h]
    rfl
  · intro h
    unfold parse_risk_opt
    rw [h]
    rfl
  · intro he hd
    unfold parse_risk_drift
    rw [if_neg (by simp [he]), if_pos hd]
    cases htok : whitespaceTokens rt with
    | nil => rfl
    | cons tok rest => rfl
  · intro h
    have h1 : lvl ≠ 1 := by omega
    have h2 : lvl ≠ 2 := by omega
    have h3 : lvl ≠ 3 := by omega
    have h4 : lvl ≠ 4 := by omega
    have h5 : lvl ≠ 5 := by omega
    constructor
    · simp [tgtFullLookup, target_map_full, h1, h2, h3, h4, h5]
    · simp [tgtOptLookup, target_map, h1, h2, h3, h4, h5]

/-- C7 witness: the amended theorem applied at `"Moderate"` (no leading
digit, so level 3) and at the out-of-range level 7 (falls back to row 3
in both tables). -/
theorem C7_risk_parse_amended_witness :
    (parse_risk_drift "Moderate" = some 3 ∧ parse_risk_opt "Moderate" = 3)
  ∧ (tgtFullLookup 7 = tmf3 ∧ tgtOptLookup 7 = tm3) :=
  ⟨(C7_risk_parse_amended "Moderate" 7).1 (Or.inr (by decide)),
   (C7_risk_parse_amended "Moderate" 7).2.2.2.2 (Or.inr (by norm_num))⟩

/-- C8: the two paths treat an unresolvable price asymmetrically.  If
any requested ticker has no resolvable price, the fetch path returns an
error message in which each such ticker occurs verbatim; on the drift
path the same condition makes a (non-USD) row contribute nothing to any
bucket, and dropping such a row leaves every bucket total unchanged —
the computation silently proceeds. -/
theorem C8_unresolvable_price_asymmetry (prices : String → Option ℚ)
    (tickers : List String) (t : String)
    (ht : t ∈ tickers) (hp : prices t = none) :
    (∃ msg, fetch_price_guard prices tickers = .error msg ∧ strIn t msg = true)
  ∧ (∀ (cls : String) (row : PositionRow) (b : Bucket),
      row.units ≠ "usd" → prices (upperStr row.ticker) = none →
      drift_contrib prices cls row b = 0)
  ∧ (∀ (cls : String) (row : PositionRow) (rows : List PositionRow)
      (rest : List (String × List PositionRow)) (b : Bucket),
      row.units ≠ "usd" → prices (upperStr row.ticker) = none →
      drift_buckets prices ((cls, row :: rows) :: rest) b
        = drift_buckets prices ((cls, rows) :: rest) b) := by
  have hcontrib : ∀ (cls : String) (row : PositionRow) (b : Bucket),
      row.units ≠ "usd" → prices (upperStr row.ticker) = none →
      drift_contrib prices cls row b = 0 := by
    intro cls row b hu hn
    have hv : drift_row_value prices row = none := by
      unfold drift_row_value
      rw [if_neg hu, hn]
    unfold drift_contrib
    rw [hv]
  refine ⟨?_, hcontrib, ?_⟩
  · have hmem : t ∈ invalid_tickers prices tickers :=
      List.mem_filter.mpr ⟨ht, by simp [hp]⟩
    have hne : invalid_tickers prices tickers ≠ [] := by
      intro h
      rw [h] at hmem
      cases hmem
    refine ⟨priced_error_message (invalid_tickers prices tickers), ?_, ?_⟩
    · unfold fetch_price_guard
      rw [if_neg hne]
    · unfold priced_error_message strIn
      rw [str_data_append, str_data_append]
      exact listHasRun_mono_right _ _ _
        (listHasRun_append_right _ _ _ (strIn_joinComma t _ hmem))
  · intro cls row rows rest b hu hn
    have h0 := hcontrib cls row b hu hn
    simp [drift_buckets, taggedRows, h0]

/-- C8 witness: the spec's scenario — `["SPY", "ZZZZINVALID"]` requested
while the oracle prices only SPY — applied to the theorem's fetch-side
conjunct: the fetch path errors and the message names `ZZZZINVALID`. -/
theorem C8_unresolvable_price_asymmetry_witness :
    ∃ msg, fetch_price_guard (fun s => if s = "SPY" then some (500 : ℚ) else none)
        ["SPY", "ZZZZINVALID"] = .error msg
      ∧ strIn "ZZZZINVALID" msg = true :=
  (C8_unresolvable_price_asymmetry
    (fun s => if s = "SPY" then some (500 : ℚ) else none)
    ["SPY", "ZZZZINVALID"] "ZZZZINVALID" (by decide) (by decide)).1

/-- C10: in the fetch path, a row with `units == "usd"`, positive
amount, and a non-empty ticker whose price resolves is counted twice:
once by the sign-encoded per-ticker pass (src/app.py:329-344, as
`-shares_lookup[t]`) and once more by the self-reported USD pass
(src/app.py:346-355, whose own comment restricts it to rows "without
tickers" but whose code does not).  For the $1,000 SPY USD row the
reported total is $2,000, not the $1,000 the row is worth — each pass
alone already accounts for the full amount. -/
theorem C10_fetch_double_count :
    invalid_tickers c10prices (fetch_tickers c10positions) = []
  ∧ ticker_pass_total c10prices c10positions = 1000
  ∧ usd_pass_total c10positions = 1000
  ∧ fetch_total_value c10prices c10positions = 2000
  ∧ (2000 : ℚ) ≠ 1000 := by
  have hfetch : fetch_tickers c10positions = ["SPY"] := by decide
  have hlk : (fetch_state c10positions).lookup "SPY" = 0 - 1000 := rfl
  have hp : c10prices "SPY" = some 500 := rfl
  have htp : ticker_pass_total c10prices c10positions = 1000 := by
    norm_num [ticker_pass_total, hfetch, hlk, hp]
  have hup : usd_pass_total c10positions = 1000 := by
    norm_num [usd_pass_total, allRows, c10positions]
  refine ⟨by decide, htp, hup, ?_, by norm_num⟩
  rw [fetch_total_value, htp, hup]
  norm_num

theorem typesOk_nil : TypesOk [] := fun e he => absurd he (List.not_mem_nil e)

theorem typesOk_cons {e : StreamEvent} {es : List StreamEvent}
    (h1 : e.type ∈ event_type_vocab) (h2 : TypesOk es) : TypesOk (e :: es) := by
  intro x hx
  rcases List.mem_cons.mp hx with rfl | hx
  · exact h1
  · exact h2 x hx

theorem typesOk_append {a b : List StreamEvent} (ha : TypesOk a) (hb : TypesOk b) :
    TypesOk (a ++ b) := by
  intro e he
  rcases List.mem_append.mp he with h | h
  · exact ha e h
  · exact hb e h

theorem csm_type_mem {t a c : String} (h : t ∈ event_type_vocab) :
    (create_stream_message t a c).type ∈ event_type_vocab := h

theorem endsGood_append {s t : List StreamEvent} (h : EndsGood t) : EndsGood (s ++ t) := by
  obtain ⟨e, hl, he⟩ := h
  have hne : t ≠ [] := by
    intro h0
    rw [h0] at hl
    cases hl
  exact ⟨e, by rw [List.getLast?_append_of_ne_nil s hne]; exact hl, he⟩

theorem goodSeg_emits {es : List StreamEvent} (h : TypesOk es) : GoodSeg (Seg.emits es) :=
  ⟨h, fun hc => Ctl.noConfusion hc⟩

theorem goodSeg_stop {es : List StreamEvent} (h1 : TypesOk es) (h2 : EndsGood es) :
    GoodSeg (Seg.stop es) := ⟨h1, fun _ => h2⟩

theorem goodSeg_seq {a b : Seg} (ha : GoodSeg a) (hb : GoodSeg b) : GoodSeg (Seg.seq a b) := by
  obtain ⟨ae, ac⟩ := a
  obtain ⟨be, bc⟩ := b
  cases ac with
  | go => exact ⟨typesOk_append ha.1 hb.1, fun hh => endsGood_append (hb.2 hh)⟩
  | halt => exact ha
  | raised m => exact ha

theorem goodSeg_call {r : Except String String} {k : String → Seg}
    (h : ∀ s, GoodSeg (k s)) : GoodSeg (Seg.call r k) := by
  cases r with
  | ok s => exact h s
  | error e => exact ⟨typesOk_nil, fun hc => Ctl.noConfusion hc⟩

theorem goodSeg_ite (c : Prop) [Decidable c] {a b : Seg}
    (ha : GoodSeg a) (hb : GoodSeg b) : GoodSeg (if c then a else b) := by
  split
  · exact ha
  · exact hb

theorem typesOk_map_thinking (k : String) (steps : List String) :
    TypesOk (steps.map (fun st => create_stream_message "agent_thinking" k st)) := by
  intro e he
  rcases List.mem_map.mp he with ⟨st, _, rfl⟩
  exact csm_type_mem (by decide)

theorem goodSeg_run_single (p : StreamParams) (k intr : String) (steps : List String) :
    GoodSeg (run_single_agent p k intr steps) := by
  unfold run_single_agent
  apply goodSeg_seq
  · exact goodSeg_emits (typesOk_cons (csm_type_mem (by decide)) (typesOk_map_thinking k steps))
  · exact goodSeg_call fun s =>
      goodSeg_emits (typesOk_cons (csm_type_mem (by decide)) typesOk_nil)

theorem goodSeg_single_for (p : StreamParams) (item : String) :
    GoodSeg (single_for p item) := by
  unfold single_for
  split_ifs <;> first
    | exact goodSeg_run_single p _ _ _
    | exact goodSeg_emits typesOk_nil

theorem goodSeg_intent_sequence (p : StreamParams) :
    ∀ (l : List String) (hd : Bool), GoodSeg (intent_sequence p hd l) := by
  intro l
  induction l with
  | nil => intro hd; exact goodSeg_emits typesOk_nil
  | cons item rest ih =>
    intro hd
    simp only [intent_sequence]
    apply goodSeg_seq
    · apply goodSeg_ite
      · exact goodSeg_run_single p _ _ _
      · exact goodSeg_emits typesOk_nil
    · exact goodSeg_seq (goodSeg_single_for p item) (ih _)

theorem goodSeg_branch_fetch_data (p : StreamParams) : GoodSeg (branch_fetch_data p) := by
  unfold branch_fetch_data
  apply goodSeg_seq
  · exact goodSeg_emits (typesOk_cons (csm_type_mem (by decide))
      (typesOk_cons (csm_type_mem (by decide)) typesOk_nil))
  · exact goodSeg_call fun r =>
      goodSeg_emits (typesOk_cons (csm_type_mem (by decide)) typesOk_nil)

theorem goodSeg_branch_analyze_drift (p : StreamParams) : GoodSeg (branch_analyze_drift p) := by
  unfold branch_analyze_drift
  apply goodSeg_seq
  · exact goodSeg_emits (typesOk_cons (csm_type_mem (by decide)) typesOk_nil)
  · apply goodSeg_call
    intro _
    apply goodSeg_seq
    · exact goodSeg_emits (typesOk_cons (csm_type_mem (by decide)) typesOk_nil)
    · exact goodSeg_call fun r =>
        goodSeg_emits (typesOk_cons (csm_type_mem (by decide)) typesOk_nil)

theorem goodSeg_branch_optimize (p : StreamParams) : GoodSeg (branch_optimize p) := by
  unfold branch_optimize
  apply goodSeg_seq
  · exact goodSeg_emits (typesOk_cons (csm_type_mem (by decide))
      (typesOk_cons (csm_type_mem (by decide)) typesOk_nil))
  · apply goodSeg_call
    intro _
    cases p.optQFetch with
    | error e =>
      exact goodSeg_stop (typesOk_cons (csm_type_mem (by decide)) typesOk_nil)
        ⟨_, rfl, Or.inr rfl⟩
    | ok q =>
      obtain ⟨risk, goal, horizon⟩ := q
      apply goodSeg_ite
      · exact goodSeg_stop (typesOk_cons (csm_type_mem (by decide)) typesOk_nil)
          ⟨_, rfl, Or.inr rfl⟩
      · apply goodSeg_seq
        · exact goodSeg_emits (typesOk_cons (csm_type_mem (by decide)) typesOk_nil)
        · apply goodSeg_call
          intro o
          apply goodSeg_seq
          · exact goodSeg_emits (typesOk_cons (csm_type_mem (by decide))
              (typesOk_cons (csm_type_mem (by decide)) typesOk_nil))
          · exact goodSeg_call fun e =>
              goodSeg_emits (typesOk_cons (csm_type_mem (by decide)) typesOk_nil)

theorem goodSeg_branch_explain (p : StreamParams) : GoodSeg (branch_explain p) := by
  unfold branch_explain
  apply goodSeg_seq
  · exact goodSeg_emits (typesOk_cons (csm_type_mem (by decide)) typesOk_nil)
  · exact goodSeg_call fun r =>
      goodSeg_emits (typesOk_cons (csm_type_mem (by decide)) typesOk_nil)

theorem goodSeg_branch_full_analysis (p : StreamParams) : GoodSeg (branch_full_analysis p) := by
  unfold branch_full_analysis
  apply goodSeg_seq
  · exact goodSeg_emits (typesOk_cons (csm_type_mem (by decide)) typesOk_nil)
  · apply goodSeg_call
    intro d
    apply goodSeg_seq
    · exact goodSeg_emits (typesOk_cons (csm_type_mem (by decide))
        (typesOk_cons (csm_type_mem (by decide)) typesOk_nil))
    · apply goodSeg_call
      intro a
      apply goodSeg_seq
      · exact goodSeg_emits (typesOk_cons (csm_type_mem (by decide))
          (typesOk_cons (csm_type_mem (by decide)) typesOk_nil))
      · apply goodSeg_call
        intro o
        apply goodSeg_seq
        · exact goodSeg_emits (typesOk_cons (csm_type_mem (by decide))
            (typesOk_cons (csm_type_mem (by decide)) typesOk_nil))
        · exact goodSeg_call fun e =>
            goodSeg_emits (typesOk_cons (csm_type_mem (by decide)) typesOk_nil)

theorem goodSeg_branch_valid (p : StreamParams) (ri ml : String) :
    GoodSeg (branch_valid p ri ml) := by
  unfold branch_valid
  split_ifs <;> first
    | exact goodSeg_branch_fetch_data p
    | exact goodSeg_branch_analyze_drift p
    | exact goodSeg_branch_optimize p
    | exact goodSeg_branch_explain p
    | exact goodSeg_branch_full_analysis p
    | exact goodSeg_emits typesOk_nil

theorem goodSeg_clarify_response (p : StreamParams) : GoodSeg (clarify_response p) := by
  unfold clarify_response
  exact goodSeg_emits (typesOk_cons (csm_type_mem (by decide)) typesOk_nil)

theorem goodSeg_branch_unknown_else (p : StreamParams) : GoodSeg (branch_unknown_else p) := by
  unfold branch_unknown_else
  apply goodSeg_seq
  · exact goodSeg_emits (typesOk_cons (csm_type_mem (by decide))
      (typesOk_cons (csm_type_mem (by decide)) typesOk_nil))
  · apply goodSeg_call
    intro d
    apply goodSeg_seq
    · exact goodSeg_emits (typesOk_cons (csm_type_mem (by decide))
        (typesOk_cons (csm_type_mem (by decide)) typesOk_nil))
    · apply goodSeg_call
      intro a
      apply goodSeg_seq
      · exact goodSeg_emits (typesOk_cons (csm_type_mem (by decide))
          (typesOk_cons (csm_type_mem (by decide)) typesOk_nil))
      · apply goodSeg_call
        intro o
        apply goodSeg_seq
        · exact goodSeg_emits (typesOk_cons (csm_type_mem (by decide))
            (typesOk_cons (csm_type_mem (by decide)) typesOk_nil))
        · exact goodSeg_call fun e =>
            goodSeg_emits (typesOk_cons (csm_type_mem (by decide)) typesOk_nil)

theorem goodSeg_block_options_end (p : StreamParams) : GoodSeg (block_options_end p) := by
  unfold block_options_end
  exact goodSeg_stop
    (typesOk_cons (csm_type_mem (by decide))
      (typesOk_cons (csm_type_mem (by decide))
        (typesOk_cons (by decide) typesOk_nil)))
    ⟨stream_end_event, rfl, Or.inl rfl⟩

theorem goodSeg_block_single_intent (p : StreamParams) (riAfter : Option String) :
    GoodSeg (block_single_intent p riAfter) := by
  unfold block_single_intent
  cases riAfter with
  | none => exact goodSeg_block_options_end p
  | some ri =>
    apply goodSeg_ite
    · apply goodSeg_seq
      · apply goodSeg_ite
        · exact goodSeg_emits typesOk_nil
        · exact goodSeg_run_single p _ _ _
      · apply goodSeg_seq
        · exact goodSeg_single_for p ri
        · exact goodSeg_stop
            (typesOk_cons (csm_type_mem (by decide))
              (typesOk_cons (by decide) typesOk_nil))
            ⟨stream_end_event, rfl, Or.inl rfl⟩
    · apply goodSeg_ite
      · exact goodSeg_block_options_end p
      · exact goodSeg_emits typesOk_nil

theorem goodSeg_legacy_full_workflow (p : StreamParams) (risk goal horizon : String) :
    GoodSeg (legacy_full_workflow p risk goal horizon) := by
  unfold legacy_full_workflow
  apply goodSeg_seq
  · exact goodSeg_emits (typesOk_cons (csm_type_mem (by decide))
      (typesOk_cons (csm_type_mem (by decide))
        (typesOk_cons (csm_type_mem (by decide))
          (typesOk_cons (csm_type_mem (by decide))
            (typesOk_cons (csm_type_mem (by decide)) typesOk_nil)))))
  · apply goodSeg_call
    intro d
    apply goodSeg_seq
    · exact goodSeg_emits (typesOk_cons (csm_type_mem (by decide))
        (typesOk_cons (csm_type_mem (by decide))
          (typesOk_cons (csm_type_mem (by decide))
            (typesOk_cons (csm_type_mem (by decide))
              (typesOk_cons (csm_type_mem (by decide))
                (typesOk_cons (csm_type_mem (by decide)) typesOk_nil))))))
    · apply goodSeg_call
      intro a
      apply goodSeg_seq
      · exact goodSeg_emits (typesOk_cons (csm_type_mem (by decide))
          (typesOk_cons (csm_type_mem (by decide))
            (typesOk_cons (csm_type_mem (by decide))
              (typesOk_cons (csm_type_mem (by decide))
                (typesOk_cons (csm_type_mem (by decide))
                  (typesOk_cons (csm_type_mem (by decide)) typesOk_nil))))))
      · apply goodSeg_call
        intro o
        apply goodSeg_seq
        · exact goodSeg_emits (typesOk_cons (csm_type_mem (by decide))
            (typesOk_cons (csm_type_mem (by decide))
              (typesOk_cons (csm_type_mem (by decide))
                (typesOk_cons (csm_type_mem (by decide))
                  (typesOk_cons (csm_type_mem (by decide))
                    (typesOk_cons (csm_type_mem (by decide)) typesOk_nil))))))
        · exact goodSeg_call fun e =>
            goodSeg_emits (typesOk_cons (csm_type_mem (by decide))
              (typesOk_cons (csm_type_mem (by decide)) typesOk_nil))

theorem goodSeg_legacy_block (p : StreamParams) (ml : String) :
    GoodSeg (legacy_block p ml) := by
  unfold legacy_block
  split_ifs
  · exact goodSeg_legacy_full_workflow p _ _ _
  · apply goodSeg_seq
    · exact goodSeg_emits (typesOk_cons (csm_type_mem (by decide)) typesOk_nil)
    · exact goodSeg_call fun r =>
        goodSeg_emits (typesOk_cons (csm_type_mem (by decide)) typesOk_nil)
  · apply goodSeg_seq
    · exact goodSeg_emits (typesOk_cons (csm_type_mem (by decide))
        (typesOk_cons (csm_type_mem (by decide))
          (typesOk_cons (csm_type_mem (by decide)) typesOk_nil)))
    · exact goodSeg_call fun r =>
        goodSeg_emits (typesOk_cons (csm_type_mem (by decide)) typesOk_nil)
  · apply goodSeg_seq
    · exact goodSeg_emits (typesOk_cons (csm_type_mem (by decide))
        (typesOk_cons (csm_type_mem (by decide))
          (typesOk_cons (csm_type_mem (by decide))
            (typesOk_cons (csm_type_mem (by decide)) typesOk_nil))))
    · exact goodSeg_call fun r =>
        goodSeg_emits (typesOk_cons (csm_type_mem (by decide))
          (typesOk_cons (csm_type_mem (by decide)) typesOk_nil))

theorem goodSeg_stream_pre (p : StreamParams) : GoodSeg (stream_pre p) := by
  unfold stream_pre
  apply goodSeg_seq
  · cases p.routerIntent with
    | none => exact goodSeg_branch_unknown_else p
    | some ri =>
      apply goodSeg_ite
      · exact goodSeg_branch_valid p ri _
      · apply goodSeg_ite
        · exact goodSeg_clarify_response p
        · exact goodSeg_branch_unknown_else p
  · apply goodSeg_seq
    · apply goodSeg_ite
      · exact goodSeg_block_options_end p
      · exact goodSeg_emits typesOk_nil
    · apply goodSeg_seq
      · apply goodSeg_ite
        · apply goodSeg_seq
          · exact goodSeg_intent_sequence p _ _
          · exact goodSeg_stop
              (typesOk_cons (csm_type_mem (by decide))
                (typesOk_cons (by decide) typesOk_nil))
              ⟨stream_end_event, rfl, Or.inl rfl⟩
        · exact goodSeg_emits typesOk_nil
      · apply goodSeg_seq
        · exact goodSeg_block_single_intent p _
        · exact goodSeg_legacy_block p _

/-- C9 (amended): for every input, every event of the modelled stream
has a type from the wire vocabulary, and the stream is nonempty and ends
either with the `stream_end` event or with an `error`-typed event.  The
claim's unconditional "terminates with stream_end" does not hold: the
optimize branch's missing-questionnaire early returns end the stream on
an `error` event with no `stream_end` after it, and an exception
escaping to the generator's top-level handler ends the stream on a bare
`error` event that also lacks the `agent` field. -/
theorem C9_stream_events_amended (p : StreamParams) :
    (∀ e ∈ create_agent_stream p, e.type ∈ event_type_vocab)
  ∧ (∃ e, (create_agent_stream p).getLast? = some e
      ∧ (e = stream_end_event ∨ e.type = "error")) := by
  have hX := goodSeg_stream_pre p
  rcases hsp : stream_pre p with ⟨xe, xc⟩
  rw [hsp] at hX
  have hstream : create_agent_stream p =
      match (Seg.seq (⟨xe, xc⟩ : Seg) (Seg.emits [stream_end_event])).ctl with
      | Ctl.raised e =>
        (Seg.seq (⟨xe, xc⟩ : Seg) (Seg.emits [stream_end_event])).events
          ++ [stream_error_event e]
      | _ => (Seg.seq (⟨xe, xc⟩ : Seg) (Seg.emits [stream_end_event])).events := by
    unfold create_agent_stream stream_body
    rw [hsp]
  cases xc with
  | go =>
    have hsimp : create_agent_stream p = xe ++ [stream_end_event] := hstream.trans rfl
    rw [hsimp]
    constructor
    · exact typesOk_append hX.1 (typesOk_cons (by decide) typesOk_nil)
    · exact ⟨stream_end_event, List.getLast?_concat xe, Or.inl rfl⟩
  | halt =>
    have hsimp : create_agent_stream p = xe := hstream.trans rfl
    rw [hsimp]
    exact ⟨hX.1, hX.2 rfl⟩
  | raised m =>
    have hsimp : create_agent_stream p = xe ++ [stream_error_event m] := hstream.trans rfl
    rw [hsimp]
    constructor
    · exact typesOk_append hX.1
        (typesOk_cons (by show "error" ∈ event_type_vocab; decide) typesOk_nil)
    · exact ⟨stream_error_event m, List.getLast?_concat xe, Or.inr rfl⟩

/-- C9 counterexample to the claim as stated: with the router resolving
`optimize_portfolio` and empty questionnaire fields, the stream's final
event is the optimize branch's `error` event, not `stream_end`; and with
the router resolving `fetch_data` and the data-fetch agent raising, the
final event is the top-level handler's bare `error` event, which also
carries no `agent` field — so the stream neither always terminates with
`stream_end` nor consists only of `{type, agent, content}` events. -/
theorem C9_stream_end_counterexample :
    (create_agent_stream c9MissingQuestionnaire).getLast?
      = some (create_stream_message "error" "optimization"
          "❌ I couldn’t find your questionnaire responses. Please complete the questionnaire first so I know your risk tolerance and goals.")
  ∧ (create_agent_stream c9AgentRaises).getLast? = some (stream_error_event "boom")
  ∧ (stream_error_event "boom").agent = none
  ∧ create_stream_message "error" "optimization"
      "❌ I couldn’t find your questionnaire responses. Please complete the questionnaire first so I know your risk tolerance and goals."
      ≠ stream_end_event
  ∧ stream_error_event "boom" ≠ stream_end_event := by decide
